import Mathlib

/-!
Shallow embedding of the reconciliation/synchronization engine of
`solar_consumer` (files `save/save_data_platform.py` and
`save/save_site_database.py`), together with theorems settling the claims
about it.

Conventions of the embedding:
* pandas DataFrames become Lean lists of structure values; a missing /
  NaN cell becomes `Option`;
* floating point arithmetic of the source (capacity ratios, `np.isclose`)
  is modelled exactly over `ℚ`; rational arithmetic is expressed through
  `Rat.divInt`-based helpers (`qMul`, `qDiv`, `qAdd`, `qSub`) so that the
  kernel can evaluate concrete runs (the library's `Rat.mul` etc. are
  sealed); the helpers are proved equal to `*`, `/`, `+`, `-`;
* string normalization (`.strip().lower()`, `.replace`) is modelled on
  the character list of the string;
* timestamps are modelled as `Nat` (only ordering and equality matter);
* each remote call issued by the engine is recorded in a trace
  (`List Call`); the external registry is a `Registry` value with the
  semantics of the call contracts (`ListObservers` intersects, an issued
  `CreateObserver` / `CreateLocation` appends — the `persist` flag lets a
  created location be invisible to the immediate re-query);
* the run outcome distinguishes a normal return, the
  no-matching-locations `ValueError`, a pandas `KeyError` (column access
  on a column-less empty frame), and a surfaced failure of a concurrent
  call group (`transportError`).
-/

/-- Multiplication on `ℚ` through `Rat.divInt` (kernel-evaluable);
equal to `*` by `qMul_eq`. -/
def qMul (a b : ℚ) : ℚ := Rat.divInt (a.num * b.num) ((a.den : Int) * (b.den : Int))

/-- Division on `ℚ` through `Rat.divInt` (kernel-evaluable);
equal to `/` by `qDiv_eq` (division by zero yields zero on both sides). -/
def qDiv (a b : ℚ) : ℚ := Rat.divInt (a.num * (b.den : Int)) ((a.den : Int) * b.num)

/-- Addition on `ℚ` through `Rat.divInt` (kernel-evaluable);
equal to `+` by `qAdd_eq`. -/
def qAdd (a b : ℚ) : ℚ :=
  Rat.divInt (a.num * (b.den : Int) + b.num * (a.den : Int)) ((a.den : Int) * (b.den : Int))

/-- Subtraction on `ℚ` through `Rat.divInt` (kernel-evaluable);
equal to `-` by `qSub_eq`. -/
def qSub (a b : ℚ) : ℚ :=
  Rat.divInt (a.num * (b.den : Int) - b.num * (a.den : Int)) ((a.den : Int) * (b.den : Int))

/-- Python `str.lower()` (per-character case folding). -/
def str_lower (s : String) : String := String.mk (s.data.map Char.toLower)

/-- Python `str.strip()` (drop leading and trailing whitespace). -/
def str_strip (s : String) : String :=
  String.mk (((s.data.dropWhile Char.isWhitespace).reverse.dropWhile Char.isWhitespace).reverse)

/-- Python `str.replace(a, b)` for the single-character pattern used in
the source (`regime.replace("-", "_")`). -/
def str_replace_dash (s : String) : String :=
  String.mk (s.data.map (fun c => if c = '-' then '_' else c))

/-- Python `int(...)` / numpy `astype(int)`: truncation toward zero
(`Int.tdiv` is T-division, which truncates toward zero). -/
def py_int (q : ℚ) : Int := Int.tdiv q.num (q.den : Int)

/-- A metadata / join-key value: protobuf `Struct` values carry either a
`number_value` or a `string_value`. -/
inductive MValue where
  | numV (q : ℚ)
  | strV (s : String)
deriving DecidableEq, Repr

/-- A registry location as returned by `ListLocations` (snake-cased dict
form used in `save_data_platform.py`). -/
structure Location where
  location_uuid : String
  location_name : String
  location_type : String
  effective_capacity_watts : Int
  metadata : List (String × MValue)
deriving DecidableEq, Repr

/-- One row of the incoming generation table.  `idVal` is the value of the
country-specific join-key column (`gsp_id` / `region_id` / `region`);
`capacity_kw = none` models a NaN capacity cell. -/
structure DataRow where
  idVal : MValue
  capacity_kw : Option ℚ
  solar_generation_kw : ℚ
  target_datetime_utc : Nat
  regime : String
deriving DecidableEq, Repr

/-- Country-specific configuration, from `_get_country_config`. -/
structure CountryConfig where
  id_key : String
  location_type : List String
  metadata_type : String
  observer_name : Option String
  required_observers : List String
deriving DecidableEq, Repr

def nlConfig : CountryConfig :=
  { id_key := "region_id", location_type := ["NATION", "COUNTY"],
    metadata_type := "number", observer_name := some "nednl",
    required_observers := [] }

def beConfig : CountryConfig :=
  { id_key := "region", location_type := ["NATION", "COUNTY"],
    metadata_type := "string", observer_name := some "elia_be",
    required_observers := [] }

def gbConfig : CountryConfig :=
  { id_key := "gsp_id", location_type := ["GSP", "NATION"],
    metadata_type := "number", observer_name := none,
    required_observers := ["pvlive_in_day", "pvlive_day_after"] }

/-- `_get_country_config`: the dict lookup falls back to the GB entry for
any unknown country code (`configs.get(country, configs["gb"])`). -/
def get_country_config (country : String) : CountryConfig :=
  if country = "nl" then nlConfig
  else if country = "be" then beConfig
  else if country = "gb" then gbConfig
  else gbConfig

/-- `_extract_metadata_value`: `.get(key, {}).get("number_value")` (resp.
`"string_value"`); asking a number of a string-typed cell (or vice versa)
yields `None`. -/
def extract_metadata_value (metadata : List (String × MValue))
    (key : String) (metadata_type : String) : Option MValue :=
  match metadata.lookup key with
  | some (MValue.numV q) =>
      if metadata_type = "number" then some (MValue.numV q) else none
  | some (MValue.strV s) =>
      if metadata_type = "number" then none else some (MValue.strV s)
  | none => none

/-- The `country` tag of a location's metadata
(`metadata.get("country", {}).get("string_value")`). -/
def loc_country (loc : Location) : Option String :=
  match loc.metadata.lookup "country" with
  | some (MValue.strV s) => some s
  | _ => none

/-- Country filter of `_list_locations`: for `country = "gb"` a location
is kept when its tag is `"gb"` or the tag is missing/empty (python
truthiness of `not loc_country`); for every other country the tag must
equal the country exactly. -/
def country_filter_keep (country : String) (loc : Location) : Bool :=
  if country = "gb" then
    loc_country loc = some "gb" ∨ loc_country loc = none ∨ loc_country loc = some ""
  else
    loc_country loc = some country

/-- `_list_locations`: one `ListLocations` call per requested location
type (solar only), concatenated, then filtered by the country tag. -/
def list_locations (locs : List Location) (ltypes : List String)
    (country : String) : List Location :=
  ((ltypes.map (fun t => locs.filter (fun l => l.location_type = t))).flatten).filter
    (country_filter_keep country)

/-- Row validity filter `capacity_kw > 0` (a NaN cell compares false). -/
def posCap (r : DataRow) : Bool :=
  match r.capacity_kw with
  | some c => 0 < c
  | none => false

/-- BE location-side join key: metadata value for the id key, falling back
to the location name (`fillna(location_name)`), then
`.astype(str).str.strip().str.lower()`.  The normalization is applied to
the location side only. -/
def be_loc_join_key (id_key : String) (loc : Location) : String :=
  let raw := match extract_metadata_value loc.metadata id_key "string" with
    | some (MValue.strV s) => s
    | _ => loc.location_name
  str_lower (str_strip raw)

/-- NL/GB location-side join key: the `number_value` of the id key;
`none` models the NaN join key of a location whose metadata holds the key
with a non-numeric value (it matches no incoming row). -/
def num_loc_join_key (id_key : String) (loc : Location) : Option ℚ :=
  match extract_metadata_value loc.metadata id_key "number" with
  | some (MValue.numV q) => some q
  | _ => none

/-- NL/GB pre-filter `df["metadata"].apply(lambda x: id_key in x)`. -/
def locs_with_key (id_key : String) (locs : List Location) : List Location :=
  locs.filter (fun l => (l.metadata.lookup id_key).isSome)

/-- One row of the inner-join result (`joined_df`): the join-key index
value together with the location columns and the incoming-data columns. -/
structure JoinedRow where
  join_key : MValue
  location_uuid : String
  location_name : String
  effective_capacity_watts : Int
  capacity_kw : ℚ
  solar_generation_kw : ℚ
  target_datetime_utc : Nat
deriving DecidableEq, Repr

def mk_joined (k : MValue) (loc : Location) (r : DataRow) : JoinedRow :=
  { join_key := k,
    location_uuid := loc.location_uuid,
    location_name := loc.location_name,
    effective_capacity_watts := loc.effective_capacity_watts,
    capacity_kw := r.capacity_kw.getD 0,
    solar_generation_kw := r.solar_generation_kw,
    target_datetime_utc := r.target_datetime_utc }

/-- BE inner join: the left (location) order is preserved, each location's
matches in incoming order, rows filtered by `capacity_kw > 0`; an incoming
row matches iff its raw key equals the location's normalized key. -/
def be_join (locs : List Location) (rows : List DataRow) (id_key : String) :
    List JoinedRow :=
  (locs.map (fun loc =>
    let k := be_loc_join_key id_key loc
    (rows.filter (fun r => posCap r && (r.idVal = MValue.strV k : Bool))).map
      (mk_joined (MValue.strV k) loc))).flatten

/-- NL/GB inner join over the locations that carry the id key; an incoming
row matches iff its key column equals the location's numeric key value. -/
def num_join (locs : List Location) (rows : List DataRow) (id_key : String) :
    List JoinedRow :=
  (locs.map (fun loc =>
    match num_loc_join_key id_key loc with
    | none => []
    | some q =>
      (rows.filter (fun r => posCap r && (r.idVal = MValue.numV q : Bool))).map
        (mk_joined (MValue.numV q) loc))).flatten

/-- Join phase of `save_generation_to_data_platform` (lines 271-320).
For BE the empty cases are guarded and give an empty join.  For every
other country the location frame is built unguarded: with zero resolved
locations `pd.DataFrame.from_dict([])` has no columns and
`locations_df.loc[lambda df: df["metadata"]...]` raises
`KeyError("metadata")`, modelled as the `Except.error` case. -/
def join_phase (country : String) (config : CountryConfig)
    (locations_data : List Location) (rows : List DataRow) :
    Except String (List JoinedRow) :=
  if country = "be" then
    Except.ok (if locations_data.isEmpty || rows.isEmpty then []
               else be_join locations_data rows config.id_key)
  else
    if locations_data.isEmpty then Except.error "metadata"
    else
      let locs2 := locs_with_key config.id_key locations_data
      Except.ok (if locs2.isEmpty || rows.isEmpty then []
                 else num_join locs2 rows config.id_key)

/-- Column `new_effective_capacity_watts = (capacity_kw * 1000).astype(int)`. -/
def new_effective_capacity_watts (j : JoinedRow) : Int :=
  py_int (qMul j.capacity_kw 1000)

/-- Column `capacity_change = abs(effective_capacity_watts /
new_effective_capacity_watts)` (exact rational arithmetic). -/
def capacity_change (j : JoinedRow) : ℚ :=
  |qDiv (j.effective_capacity_watts : ℚ) ((new_effective_capacity_watts j : Int) : ℚ)|

/-- Numpy `np.isclose(a, b, rtol, atol)`: `|a - b| ≤ atol + rtol * |b|`
with the default absolute tolerance `atol = 1e-8` supplied at use sites. -/
def np_isclose (a b rtol atol : ℚ) : Bool :=
  |qSub a b| ≤ qAdd atol (qMul rtol |b|)

/-- Drift test of the update selection:
`~np.isclose(capacity_change, 1.0, rtol=0.02)` (numpy default `atol=1e-8`). -/
def is_drifting (j : JoinedRow) : Bool :=
  !(np_isclose (capacity_change j) 1 (mkRat 2 100) (mkRat 1 100000000))

/-- Stable insertion for the descending-by-timestamp sort. -/
def insert_desc (j : JoinedRow) : List JoinedRow → List JoinedRow
  | [] => [j]
  | x :: xs =>
    if j.target_datetime_utc < x.target_datetime_utc then x :: insert_desc j xs
    else j :: x :: xs

/-- `sort_values(by="target_datetime_utc", ascending=False)` as a stable
sort (an element is placed before later elements of equal timestamp). -/
def stable_sort_desc : List JoinedRow → List JoinedRow
  | [] => []
  | j :: rest => insert_desc j (stable_sort_desc rest)

/-- Helper of `first_per_key`: keep the rows whose join key has not been
seen yet. -/
def first_per_key_aux (seen : List MValue) : List JoinedRow → List JoinedRow
  | [] => []
  | j :: rest =>
    if j.join_key ∈ seen then first_per_key_aux seen rest
    else j :: first_per_key_aux (j.join_key :: seen) rest

/-- `groupby(level=0).head(1)`: keep, per join-key index value, the first
row in the current order. -/
def first_per_key (l : List JoinedRow) : List JoinedRow :=
  first_per_key_aux [] l

/-- Comparison on join-key index values for the final `sort_index()`
(keys of one run are homogeneous; the mixed cases are arbitrary). -/
def key_le : MValue → MValue → Bool
  | MValue.numV a, MValue.numV b => decide (a ≤ b)
  | MValue.strV a, MValue.strV b => decide (a < b) || decide (a = b)
  | MValue.numV _, MValue.strV _ => true
  | MValue.strV _, MValue.numV _ => false

def insert_key (j : JoinedRow) : List JoinedRow → List JoinedRow
  | [] => [j]
  | x :: xs =>
    if key_le j.join_key x.join_key then j :: x :: xs else x :: insert_key j xs

/-- `sort_index()` on the (now per-key unique) update rows. -/
def sort_by_key (l : List JoinedRow) : List JoinedRow :=
  l.foldr insert_key []

/-- The update selection `updates_df` (lines 360-366): filter the rows
whose `capacity_change` is not within `np.isclose` of 1, sort by timestamp
descending, keep the first row per join-key group, sort by index. -/
def updates_rows (joined : List JoinedRow) : List JoinedRow :=
  sort_by_key (first_per_key (stable_sort_desc (joined.filter is_drifting)))

/-- Helper of `dedup_first`: keep the values not seen yet. -/
def dedup_first_aux {α : Type} [DecidableEq α] (seen : List α) :
    List α → List α
  | [] => []
  | a :: rest =>
    if a ∈ seen then dedup_first_aux seen rest
    else a :: dedup_first_aux (a :: seen) rest

/-- First-occurrence deduplication (`pandas unique` / first-seen insertion
order of a `defaultdict`). -/
def dedup_first {α : Type} [DecidableEq α] (l : List α) : List α :=
  dedup_first_aux [] l

/-- Observation values accumulated for one location:
`(timestamp, (solar_generation_kw * 1000).astype(int))` in joined order. -/
def observation_values (joined : List JoinedRow) (uuid : String) :
    List (Nat × Int) :=
  (joined.filter (fun j => (j.location_uuid = uuid : Bool))).map
    (fun j => (j.target_datetime_utc, py_int (qMul j.solar_generation_kw 1000)))

/-- `observations_by_loc`: one group per location uuid in first-seen
order, with that location's values. -/
def observation_groups (joined : List JoinedRow) :
    List (String × List (Nat × Int)) :=
  (dedup_first (joined.map (fun j => j.location_uuid))).map
    (fun u => (u, observation_values joined u))

/-- Observer name for the observation requests: the configured name, or
for GB `"pvlive_" + regime.replace("-", "_")` taken from the FIRST row of
the incoming table (`data_df["regime"].values[0]`); the empty-input case
is unreachable because the observation phase runs only on a non-empty
join. -/
def observer_for (config : CountryConfig) (rows : List DataRow) : String :=
  match config.observer_name with
  | some n => n
  | none =>
    match rows with
    | r :: _ => "pvlive_" ++ str_replace_dash r.regime
    | [] => "pvlive_"

/-- A remote call issued to the data platform.  `createLocation` carries
the coordinate pair of the `POINT(lon lat)` geometry. -/
inductive Call where
  | listObservers (names : List String)
  | createObserver (name : String)
  | listLocations (ltype : String)
  | createLocation (name : String) (ltype : String) (lon lat : ℚ)
      (capacity : Int) (metadata : List (String × MValue)) (validFrom : Nat)
  | updateLocation (uuid : String) (newCapacity : Int) (validFrom : Nat)
  | createObservations (uuid : String) (observer : String)
      (values : List (Nat × Int))
deriving DecidableEq, Repr

/-- Outcome of one run of `save_generation_to_data_platform`. -/
inductive Outcome where
  | ok
  | valueError (ids : List MValue)
  | keyError (key : String)
  | transportError
deriving DecidableEq, Repr

/-- The registry state visible to the engine. -/
structure Registry where
  observers : List String
  locations : List Location
deriving DecidableEq, Repr

structure RunResult where
  trace : List Call
  outcome : Outcome
  registry : Registry
deriving DecidableEq, Repr

/-- Modelled from the spec: one row of the static seed catalog
(`data/locations.csv`, which is referenced by
`_create_locations_from_csv` but not part of the sources): a country
code, a name, coordinates, a location type and the join-key value, typed
per the country profile (numeric for NL, string for BE). -/
structure SeedRow where
  country_code : String
  name : String
  latitude : ℚ
  longitude : ℚ
  location_type : String
  idVal : MValue
deriving DecidableEq, Repr

/-- The fixed historical `valid_from` of bootstrap creations
(`datetime(2020, 1, 1, tzinfo=utc)` as an epoch timestamp). -/
def bootstrap_valid_from : Nat := 1577836800

/-- Location type of a seed entry: `NATION` and `COUNTY` pass through,
anything else defaults to `NATION`. -/
def seed_ltype (s : SeedRow) : String :=
  if s.location_type = "NATION" then "NATION"
  else if s.location_type = "COUNTY" then "COUNTY"
  else "NATION"

/-- Metadata of a bootstrap creation: the country tag and the join-key
value under the profile's id key. -/
def seed_metadata (country id_key : String) (s : SeedRow) :
    List (String × MValue) :=
  [("country", MValue.strV country), (id_key, s.idVal)]

/-- The `CreateLocationRequest` issued for one seed entry: name, geometry
point, the large default capacity `100_000_000_000` W and the fixed
historical `valid_from`. -/
def seed_create_call (country id_key : String) (s : SeedRow) : Call :=
  Call.createLocation s.name (seed_ltype s) s.longitude s.latitude
    100000000000 (seed_metadata country id_key s) bootstrap_valid_from

/-- The location the registry holds after a persisted bootstrap creation
(the uuid is registry-assigned and opaque; the model derives it from the
name). -/
def seed_location (country id_key : String) (s : SeedRow) : Location :=
  { location_uuid := "created_" ++ s.name,
    location_name := s.name,
    location_type := seed_ltype s,
    effective_capacity_watts := 100000000000,
    metadata := seed_metadata country id_key s }

/-- `_create_locations_from_csv`: filter the catalog by country code and
issue one `CreateLocation` per entry; returns the calls and the created
locations. -/
def create_locations_from_csv (catalog : List SeedRow) (country id_key : String) :
    List Call × List Location :=
  let rows := catalog.filter (fun s => (s.country_code = country : Bool))
  (rows.map (seed_create_call country id_key),
   rows.map (seed_location country id_key))

/-- The observer names required for the run: the configured single name
(NL/BE) or the configured set (GB). -/
def required_observers_for (config : CountryConfig) : List String :=
  match config.observer_name with
  | some n => [n]
  | none => config.required_observers

/-- The missing observers, `required.difference(listed)`, computed against
the registry (`ListObservers` returns the intersection of the filter with
the registry's observers). -/
def observer_creates (reg : Registry) (config : CountryConfig) : List String :=
  (required_observers_for config).filter (fun n => decide (¬ n ∈ reg.observers))

/-- Registry state after the observer-provisioning phase: each issued
`CreateObserver` appends its name. -/
def observer_phase_registry (reg : Registry) (config : CountryConfig) : Registry :=
  { observers := reg.observers ++ observer_creates reg config,
    locations := reg.locations }

structure ResolveResult where
  calls : List Call
  registry : Registry
  locations : List Location
deriving DecidableEq, Repr

/-- Location resolution (step 1 of `save_generation_to_data_platform`):
list locations; for NL/BE, when the result is empty, create the seed
entries and re-query.  `persist` says whether an issued `CreateLocation`
is visible to the immediate re-query. -/
def resolve_locations (reg1 : Registry) (catalog : List SeedRow)
    (country : String) (config : CountryConfig) (persist : Bool) : ResolveResult :=
  let listCalls := config.location_type.map Call.listLocations
  let l1 := list_locations reg1.locations config.location_type country
  if country = "nl" ∨ country = "be" then
    if l1.isEmpty then
      let created := create_locations_from_csv catalog country config.id_key
      let reg2 : Registry :=
        if persist then ⟨reg1.observers, reg1.locations ++ created.2⟩ else reg1
      let l2 := list_locations reg2.locations config.location_type country
      ⟨listCalls ++ created.1 ++ listCalls, reg2, l2⟩
    else ⟨listCalls, reg1, l1⟩
  else ⟨listCalls, reg1, l1⟩

/-- The `UpdateLocationRequest` built from one selected update row. -/
def update_call (j : JoinedRow) : Call :=
  Call.updateLocation j.location_uuid (new_effective_capacity_watts j)
    j.target_datetime_utc

/-- Steps after the join (lines 322-431): empty-join handling, the
capacity-update group, then the observation group.  `failUpdate` says
which location's `UpdateLocation` call fails; the whole update group is
issued (gather waits for every task), after which the first failure is
re-raised, so a failing update group ends the run before the observation
phase. -/
def finish_run (t : List Call) (reg : Registry) (joined : List JoinedRow)
    (rows : List DataRow) (config : CountryConfig)
    (failUpdate : String → Bool) : RunResult :=
  if joined.isEmpty then
    if rows.isEmpty || !(rows.any posCap) then ⟨t, Outcome.ok, reg⟩
    else ⟨t, Outcome.valueError (dedup_first (rows.map (fun r => r.idVal))), reg⟩
  else
    let ups := updates_rows joined
    let t2 := t ++ ups.map update_call
    if ups.any (fun j => failUpdate j.location_uuid) then
      ⟨t2, Outcome.transportError, reg⟩
    else
      let oname := observer_for config rows
      ⟨t2 ++ (observation_groups joined).map
          (fun g => Call.createObservations g.1 oname g.2),
       Outcome.ok, reg⟩

/-- One run of `save_generation_to_data_platform`: observer provisioning,
location resolution (with bootstrap), join, update group, observation
group; returns the call trace, the outcome and the final registry. -/
def save_generation_to_data_platform (reg : Registry) (catalog : List SeedRow)
    (rows : List DataRow) (country : String) (persist : Bool)
    (failUpdate : String → Bool) : RunResult :=
  let config := get_country_config country
  let creates := observer_creates reg config
  let t1 := Call.listObservers (required_observers_for config) ::
    creates.map Call.createObserver
  let reg1 := observer_phase_registry reg config
  let rr := resolve_locations reg1 catalog country config persist
  let t2 := t1 ++ rr.calls
  match join_phase country config rr.locations rows with
  | Except.error k => ⟨t2, Outcome.keyError k, rr.registry⟩
  | Except.ok joined => finish_run t2 rr.registry joined rows config failUpdate

/-- One row of the NL generation table of the direct site-database path
(`save_site_database.py`). -/
structure NLRow where
  region_id : Int
  capacity_kw : Option ℚ
  solar_generation_kw : ℚ
  target_datetime_utc : Nat
deriving DecidableEq, Repr

/-- `validate_nl_capacities`: per timestamp group, compare the sum of the
regional capacities (region_id ≠ 0, NaN summed as 0 by `skipna`) with the
first national capacity row (region_id = 0); groups with no national
capacity or no regional rows are skipped; a zero national capacity fails;
otherwise the group fails iff `ratio ≥ 1 + tolerance` or
`ratio ≤ 1 - tolerance`.  The python loop returns `False` on the first
failing group, `True` when every group passes, which equals this `all`. -/
def validate_nl_capacities (rows : List NLRow) (tolerance : ℚ) : Bool :=
  (dedup_first (rows.map (fun r => r.target_datetime_utc))).all (fun ts =>
    let group := rows.filter (fun r => (r.target_datetime_utc = ts : Bool))
    match group.filter (fun r => (r.region_id = 0 : Bool)) with
    | [] => true
    | n :: _ =>
      match n.capacity_kw with
      | none => true
      | some natCap =>
        let regional := group.filter (fun r => !(r.region_id = 0 : Bool))
        if regional.isEmpty then true
        else if natCap = 0 then false
        else
          let rsum := (regional.map (fun r => r.capacity_kw.getD 0)).foldr qAdd 0
          !(decide (qAdd 1 tolerance ≤ qDiv rsum natCap) ||
            decide (qDiv rsum natCap ≤ qSub 1 tolerance)))

/-- A database action of the direct site-database path. -/
inductive SiteCall where
  | createSite (client_site_name : String) (capacity_kw : ℚ)
  | insertGeneration (client_site_name : String) (rowCount : Nat)
  | updateCapacity (client_site_name : String) (new_capacity_kw : ℚ)
deriving DecidableEq, Repr

/-- Whether `save_generation_to_site_db` returned normally or raised. -/
inductive SiteOutcome where
  | returned
  | raised (msg : String)
deriving DecidableEq, Repr

/-- The client-site names of the NL national and regional sites, keyed by
`region_id` as in `NL_NATIONAL_AND_REGIONS`. -/
def nl_site_name (k : Int) : String :=
  if k = 0 then "nl_national"
  else if k = 1 then "nl_region_1_groningen"
  else if k = 2 then "nl_region_2_friesland"
  else if k = 3 then "nl_region_3_drenthe"
  else if k = 4 then "nl_region_4_overijssel"
  else if k = 5 then "nl_region_5_flevoland"
  else if k = 6 then "nl_region_6_gelderland"
  else if k = 7 then "nl_region_7_utrecht"
  else if k = 8 then "nl_region_8_noord_holland"
  else if k = 9 then "nl_region_9_zuid_holland"
  else if k = 10 then "nl_region_10_zeeland"
  else if k = 11 then "nl_region_11_noord_brabant"
  else "nl_region_12_limburg"

def nl_site_keys : List Int := [0, 1, 2, 3, 4, 5, 6, 7, 8, 9, 10, 11, 12]

/-- Capacity override of one site's rows: `int(df["capacity_kw"].max())`
(pandas `max` skips NaN; all-NaN gives no override). -/
def capacity_override_of (sub : List NLRow) : Option Int :=
  ((sub.map (fun r => r.capacity_kw)).foldr
    (fun c acc => match c, acc with
      | none, a => a
      | some q, none => some q
      | some q, some m => some (if m ≤ q then q else m)) none).map py_int

/-- `get_or_create_pvsite` at country `"nl"`: fetch the site by name, or
create it with the override capacity (default `20_000_000` kW); the site
database is modelled as a name-to-capacity association list. -/
def get_or_create_pvsite (sites : List (String × ℚ)) (name : String)
    (capacity_override_kw : Option Int) : List SiteCall × List (String × ℚ) × ℚ :=
  match sites.lookup name with
  | some cap => ([], sites, cap)
  | none =>
    let cap : ℚ := match capacity_override_kw with
      | some o => (o : ℚ)
      | none => 20000000
    ([SiteCall.createSite name cap], sites ++ [(name, cap)], cap)

/-- `update_capacity`: update the stored capacity when an override exists
and differs from it by at least 1 kW. -/
def update_capacity (sites : List (String × ℚ)) (name : String) (siteCap : ℚ)
    (capacity_override_kw : Option Int) : List SiteCall × List (String × ℚ) :=
  match capacity_override_kw with
  | none => ([], sites)
  | some o =>
    if 1 ≤ |qSub (o : ℚ) siteCap| then
      ([SiteCall.updateCapacity name (o : ℚ)],
       sites.map (fun p => if p.1 = name then (p.1, (o : ℚ)) else p))
    else ([], sites)

/-- The per-site loop of `save_generation_to_site_db` at country `"nl"`:
filter by `region_id`, skip empty, get-or-create the site, insert the
rows, then maybe bump the stored capacity. -/
def site_db_loop : List Int → List (String × ℚ) → List NLRow →
    List SiteCall × List (String × ℚ)
  | [], sites, _ => ([], sites)
  | k :: ks, sites, rows =>
    let sub := rows.filter (fun r => (r.region_id = k : Bool))
    if sub.isEmpty then site_db_loop ks sites rows
    else
      let ov := capacity_override_of sub
      let step1 := get_or_create_pvsite sites (nl_site_name k) ov
      let step2 := update_capacity step1.2.1 (nl_site_name k) step1.2.2 ov
      let rest := site_db_loop ks step2.2 rows
      (step1.1 ++ [SiteCall.insertGeneration (nl_site_name k) sub.length] ++
         step2.1 ++ rest.1,
       rest.2)

/-- `save_generation_to_site_db` specialized to its NL path (the path the
claim is about): empty input returns; a failing capacity validation logs
and returns with no database action; otherwise the per-site loop runs. -/
def save_generation_to_site_db_nl (rows : List NLRow)
    (sites : List (String × ℚ)) :
    List SiteCall × SiteOutcome × List (String × ℚ) :=
  if rows.isEmpty then ([], SiteOutcome.returned, sites)
  else if !(validate_nl_capacities rows (mkRat 1 1000)) then
    ([], SiteOutcome.returned, sites)
  else
    let looped := site_db_loop nl_site_keys sites rows
    (looped.1, SiteOutcome.returned, looped.2)

/-- Call classifier: is this an `UpdateLocation` (capacity update)? -/
def is_update_call : Call → Bool
  | Call.updateLocation _ _ _ => true
  | _ => false

/-- Call classifier: is this a `CreateObservations`? -/
def is_obs_call : Call → Bool
  | Call.createObservations _ _ _ => true
  | _ => false

/-- Call classifier: is this a `CreateLocation`? -/
def is_create_location : Call → Bool
  | Call.createLocation _ _ _ _ _ _ _ => true
  | _ => false

/-- Call classifier: is this `CreateObserver name`? -/
def is_create_observer (name : String) : Call → Bool
  | Call.createObserver n => n = name
  | _ => false

/-- Call classifier: is this an insert of generation rows? -/
def is_insert_call : SiteCall → Bool
  | SiteCall.insertGeneration _ _ => true
  | _ => false

/-- GB fixture location: a GSP location with numeric `gsp_id` metadata. -/
def fixture_gb_loc (capacity : Int) : Location :=
  { location_uuid := "uuid-1", location_name := "GSP one", location_type := "GSP",
    effective_capacity_watts := capacity,
    metadata := [("country", MValue.strV "gb"), ("gsp_id", MValue.numV 1)] }

/-- GB fixture registry with the two pvlive observers already present. -/
def fixture_gb_registry (capacity : Int) : Registry :=
  { observers := ["pvlive_in_day", "pvlive_day_after"],
    locations := [fixture_gb_loc capacity] }

/-- Two valid GB rows for `gsp_id` 1, with two distinct regime values. -/
def fixture_rows_two_regimes : List DataRow :=
  [{ idVal := MValue.numV 1, capacity_kw := some 1000, solar_generation_kw := 500,
     target_datetime_utc := 10, regime := "in-day" },
   { idVal := MValue.numV 1, capacity_kw := some 1000, solar_generation_kw := 600,
     target_datetime_utc := 20, regime := "day-after" }]

/-- One valid GB row for `gsp_id` 1. -/
def fixture_row_one : DataRow :=
  { idVal := MValue.numV 1, capacity_kw := some 1000, solar_generation_kw := 500,
    target_datetime_utc := 10, regime := "in-day" }

/-- The three-reading scenario of the spec: registry capacity 50e6 W,
reported capacities 5e6, 10e6, 2e6 W (5000, 10000, 2000 kW) at increasing
timestamps, one location. -/
def fixture_joined_example : List JoinedRow :=
  [{ join_key := MValue.numV 1, location_uuid := "L", location_name := "L",
     effective_capacity_watts := 50000000, capacity_kw := 5000,
     solar_generation_kw := 0, target_datetime_utc := 1 },
   { join_key := MValue.numV 1, location_uuid := "L", location_name := "L",
     effective_capacity_watts := 50000000, capacity_kw := 10000,
     solar_generation_kw := 0, target_datetime_utc := 2 },
   { join_key := MValue.numV 1, location_uuid := "L", location_name := "L",
     effective_capacity_watts := 50000000, capacity_kw := 2000,
     solar_generation_kw := 0, target_datetime_utc := 3 }]

/-- A joined row whose capacity ratio is `1.02 + 5e-11`: above the 2%
relative tolerance but inside numpy's additional `atol = 1e-8`. -/
def fixture_joined_atol : JoinedRow :=
  { join_key := MValue.numV 1, location_uuid := "L", location_name := "L",
    effective_capacity_watts := 102000000005, capacity_kw := 100000000,
    solar_generation_kw := 0, target_datetime_utc := 0 }

/-- BE fixture location named and tagged `flanders` (lower case). -/
def fixture_be_loc : Location :=
  { location_uuid := "uuid-be", location_name := "Flanders",
    location_type := "NATION", effective_capacity_watts := 1000000,
    metadata := [("country", MValue.strV "be"), ("region", MValue.strV "flanders")] }

/-- BE fixture registry. -/
def fixture_be_registry : Registry :=
  { observers := ["elia_be"], locations := [fixture_be_loc] }

/-- A valid BE row whose region key differs from the location's key only
in letter case. -/
def fixture_be_row_upper : DataRow :=
  { idVal := MValue.strV "FLANDERS", capacity_kw := some 1000,
    solar_generation_kw := 500, target_datetime_utc := 10, regime := "" }

/-- An NL seed-catalog entry. -/
def fixture_nl_seed : SeedRow :=
  { country_code := "nl", name := "Nederland", latitude := 52, longitude := 5,
    location_type := "NATION", idVal := MValue.numV 0 }

/-- NL site-database rows whose regional capacity sum (200) is twice the
national capacity (100) at the same timestamp. -/
def fixture_nl_bad_rows : List NLRow :=
  [{ region_id := 0, capacity_kw := some 100, solar_generation_kw := 10,
     target_datetime_utc := 0 },
   { region_id := 1, capacity_kw := some 200, solar_generation_kw := 5,
     target_datetime_utc := 0 }]

deriving instance DecidableEq for Except

/-- Rows of the join result belonging to one location. -/
def location_rows (joined : List JoinedRow) (uuid : String) : List JoinedRow :=
  joined.filter (fun j => (j.location_uuid = uuid : Bool))

/-- A GSP location carrying `gsp_id` metadata but no country tag (as the
pre-tagging GB locations). -/
def fixture_gb_untagged_loc : Location :=
  { location_uuid := "uuid-2", location_name := "GSP two", location_type := "GSP",
    effective_capacity_watts := 1000000,
    metadata := [("gsp_id", MValue.numV 1)] }

/-- A BE location whose raw metadata key needs trimming and case folding. -/
def fixture_be_loc_messy : Location :=
  { location_uuid := "uuid-be-2", location_name := "Flanders",
    location_type := "NATION", effective_capacity_watts := 1000000,
    metadata := [("country", MValue.strV "be"),
                 ("region", MValue.strV "  FlAnders ")] }

/-- A valid NL row for `region_id` 0. -/
def fixture_nl_row : DataRow :=
  { idVal := MValue.numV 0, capacity_kw := some 1000, solar_generation_kw := 500,
    target_datetime_utc := 10, regime := "" }

/-- A joined row whose registry capacity (2e6 W) is twice the reported
capacity (1e6 W), hence drifting. -/
def fixture_joined_drift : JoinedRow :=
  { join_key := MValue.numV 1, location_uuid := "L", location_name := "L",
    effective_capacity_watts := 2000000, capacity_kw := 1000,
    solar_generation_kw := 0, target_datetime_utc := 0 }

theorem qMul_eq (a b : ℚ) : qMul a b = a * b := by
  rw [qMul, Rat.divInt_eq_div]
  push_cast
  conv_rhs => rw [← Rat.num_div_den a, ← Rat.num_div_den b]
  rw [div_mul_div_comm]

theorem qDiv_eq (a b : ℚ) : qDiv a b = a / b := by
  rcases eq_or_ne b 0 with hb | hb
  · subst hb
    rw [qDiv, Rat.divInt_eq_div]
    simp
  · have hbn : (b.num : ℚ) ≠ 0 := by
      exact_mod_cast Rat.num_ne_zero.mpr hb
    have had : (a.den : ℚ) ≠ 0 := by
      exact_mod_cast a.den_nz
    have hbd : (b.den : ℚ) ≠ 0 := by
      exact_mod_cast b.den_nz
    rw [qDiv, Rat.divInt_eq_div]
    push_cast
    conv_rhs => rw [← Rat.num_div_den a, ← Rat.num_div_den b]
    field_simp

theorem qAdd_eq (a b : ℚ) : qAdd a b = a + b := by
  have had : (a.den : ℚ) ≠ 0 := by
    exact_mod_cast a.den_nz
  have hbd : (b.den : ℚ) ≠ 0 := by
    exact_mod_cast b.den_nz
  rw [qAdd, Rat.divInt_eq_div]
  push_cast
  conv_rhs => rw [← Rat.num_div_den a, ← Rat.num_div_den b]
  field_simp

theorem qSub_eq (a b : ℚ) : qSub a b = a - b := by
  have had : (a.den : ℚ) ≠ 0 := by
    exact_mod_cast a.den_nz
  have hbd : (b.den : ℚ) ≠ 0 := by
    exact_mod_cast b.den_nz
  rw [qSub, Rat.divInt_eq_div]
  push_cast
  conv_rhs => rw [← Rat.num_div_den a, ← Rat.num_div_den b]
  field_simp
  ring

theorem mem_insert_desc {j x : JoinedRow} {l : List JoinedRow} :
    x ∈ insert_desc j l ↔ x = j ∨ x ∈ l := by
  induction l with
  | nil => simp [insert_desc]
  | cons a as ih =>
    by_cases h : j.target_datetime_utc < a.target_datetime_utc
    · simp only [insert_desc, if_pos h, List.mem_cons, ih]
      tauto
    · simp only [insert_desc, if_neg h, List.mem_cons]

theorem mem_stable_sort_desc {x : JoinedRow} {l : List JoinedRow} :
    x ∈ stable_sort_desc l ↔ x ∈ l := by
  induction l with
  | nil => simp [stable_sort_desc]
  | cons a as ih =>
    simp only [stable_sort_desc, mem_insert_desc, ih, List.mem_cons]

theorem pairwise_insert_desc {j : JoinedRow} {l : List JoinedRow}
    (h : l.Pairwise (fun a b => b.target_datetime_utc ≤ a.target_datetime_utc)) :
    (insert_desc j l).Pairwise
      (fun a b => b.target_datetime_utc ≤ a.target_datetime_utc) := by
  induction l with
  | nil => simp [insert_desc]
  | cons a as ih =>
    rcases List.pairwise_cons.mp h with ⟨ha, has⟩
    by_cases hj : j.target_datetime_utc < a.target_datetime_utc
    · simp only [insert_desc, if_pos hj]
      refine List.pairwise_cons.mpr ⟨?_, ih has⟩
      intro y hy
      rcases mem_insert_desc.mp hy with rfl | hy2
      · exact Nat.le_of_lt hj
      · exact ha y hy2
    · simp only [insert_desc, if_neg hj]
      refine List.pairwise_cons.mpr ⟨?_, h⟩
      intro y hy
      rcases List.mem_cons.mp hy with rfl | hy2
      · exact Nat.le_of_not_lt hj
      · exact Nat.le_trans (ha y hy2) (Nat.le_of_not_lt hj)

theorem pairwise_stable_sort_desc (l : List JoinedRow) :
    (stable_sort_desc l).Pairwise
      (fun a b => b.target_datetime_utc ≤ a.target_datetime_utc) := by
  induction l with
  | nil => simp [stable_sort_desc]
  | cons a as ih =>
    simp only [stable_sort_desc]
    exact pairwise_insert_desc ih

theorem mem_fpk_aux {seen : List MValue} {l : List JoinedRow} {x : JoinedRow}
    (hx : x ∈ first_per_key_aux seen l) : x ∈ l ∧ x.join_key ∉ seen := by
  induction l generalizing seen with
  | nil => simp [first_per_key_aux] at hx
  | cons a as ih =>
    simp only [first_per_key_aux] at hx
    by_cases h : a.join_key ∈ seen
    · rw [if_pos h] at hx
      rcases ih hx with ⟨h1, h2⟩
      exact ⟨List.mem_cons_of_mem _ h1, h2⟩
    · rw [if_neg h] at hx
      rcases List.mem_cons.mp hx with rfl | hx2
      · exact ⟨List.mem_cons_self _ _, h⟩
      · rcases ih hx2 with ⟨h1, h2⟩
        exact ⟨List.mem_cons_of_mem _ h1,
          fun hc => h2 (List.mem_cons_of_mem _ hc)⟩

theorem fpk_aux_exists {seen : List MValue} {l : List JoinedRow} {j : JoinedRow}
    (hj : j ∈ l) (hs : j.join_key ∉ seen) :
    ∃ x ∈ first_per_key_aux seen l, x.join_key = j.join_key := by
  induction l generalizing seen with
  | nil => simp at hj
  | cons a as ih =>
    simp only [first_per_key_aux]
    by_cases h : a.join_key ∈ seen
    · rw [if_pos h]
      rcases List.mem_cons.mp hj with rfl | hj2
      · exact absurd h hs
      · exact ih hj2 hs
    · rw [if_neg h]
      rcases List.mem_cons.mp hj with rfl | hj2
      · exact ⟨j, List.mem_cons_self _ _, rfl⟩
      · by_cases hk : j.join_key = a.join_key
        · exact ⟨a, List.mem_cons_self _ _, hk.symm⟩
        · rcases ih hj2 (by
            intro hc
            rcases List.mem_cons.mp hc with h1 | h1
            · exact hk h1
            · exact hs h1) with ⟨x, hx1, hx2⟩
          exact ⟨x, List.mem_cons_of_mem _ hx1, hx2⟩

theorem fpk_aux_pairwise (seen : List MValue) (l : List JoinedRow) :
    (first_per_key_aux seen l).Pairwise (fun a b => a.join_key ≠ b.join_key) := by
  induction l generalizing seen with
  | nil => simp [first_per_key_aux]
  | cons a as ih =>
    simp only [first_per_key_aux]
    by_cases h : a.join_key ∈ seen
    · rw [if_pos h]
      exact ih seen
    · rw [if_neg h]
      refine List.pairwise_cons.mpr ⟨?_, ih _⟩
      intro y hy hc
      exact (mem_fpk_aux hy).2 (List.mem_cons.mpr (Or.inl hc.symm))

theorem fpk_aux_max {seen : List MValue} {l : List JoinedRow} {x : JoinedRow}
    (hp : l.Pairwise (fun a b => b.target_datetime_utc ≤ a.target_datetime_utc))
    (hx : x ∈ first_per_key_aux seen l) :
    ∀ j ∈ l, j.join_key = x.join_key →
      j.target_datetime_utc ≤ x.target_datetime_utc := by
  induction l generalizing seen with
  | nil => simp [first_per_key_aux] at hx
  | cons a as ih =>
    rcases List.pairwise_cons.mp hp with ⟨ha, has⟩
    simp only [first_per_key_aux] at hx
    by_cases h : a.join_key ∈ seen
    · rw [if_pos h] at hx
      intro j hj hk
      rcases List.mem_cons.mp hj with rfl | hj2
      · exact absurd (hk ▸ h) (mem_fpk_aux hx).2
      · exact ih has hx j hj2 hk
    · rw [if_neg h] at hx
      rcases List.mem_cons.mp hx with rfl | hx2
      · intro j hj hk
        rcases List.mem_cons.mp hj with rfl | hj2
        · exact Nat.le_refl _
        · exact ha j hj2
      · intro j hj hk
        rcases List.mem_cons.mp hj with rfl | hj2
        · exact absurd (List.mem_cons.mpr (Or.inl hk.symm)) (mem_fpk_aux hx2).2
        · exact ih has hx2 j hj2 hk

theorem mem_insert_key {j x : JoinedRow} {l : List JoinedRow} :
    x ∈ insert_key j l ↔ x = j ∨ x ∈ l := by
  induction l with
  | nil => simp [insert_key]
  | cons a as ih =>
    by_cases h : key_le j.join_key a.join_key
    · simp only [insert_key, if_pos h, List.mem_cons]
    · simp only [insert_key, if_neg h, List.mem_cons, ih]
      tauto

theorem sort_by_key_cons (a : JoinedRow) (l : List JoinedRow) :
    sort_by_key (a :: l) = insert_key a (sort_by_key l) := rfl

theorem mem_sort_by_key {x : JoinedRow} {l : List JoinedRow} :
    x ∈ sort_by_key l ↔ x ∈ l := by
  induction l with
  | nil => simp [sort_by_key]
  | cons a as ih =>
    rw [sort_by_key_cons, mem_insert_key, ih, List.mem_cons]

theorem countP_insert_key (p : JoinedRow → Bool) (j : JoinedRow)
    (l : List JoinedRow) :
    (insert_key j l).countP p = (j :: l).countP p := by
  induction l with
  | nil => simp [insert_key]
  | cons a as ih =>
    by_cases h : key_le j.join_key a.join_key
    · simp only [insert_key, if_pos h]
    · simp only [insert_key, if_neg h]
      rw [List.countP_cons, ih, List.countP_cons, List.countP_cons,
        List.countP_cons]
      omega

theorem countP_sort_by_key (p : JoinedRow → Bool) (l : List JoinedRow) :
    (sort_by_key l).countP p = l.countP p := by
  induction l with
  | nil => rfl
  | cons a as ih =>
    rw [sort_by_key_cons, countP_insert_key, List.countP_cons,
      List.countP_cons, ih]

theorem countP_le_one_of_pairwise_keys {l : List JoinedRow}
    {p : JoinedRow → Bool}
    (hp : l.Pairwise (fun a b => a.join_key ≠ b.join_key))
    (hlink : ∀ a ∈ l, ∀ b ∈ l, p a = true → p b = true →
      a.join_key = b.join_key) :
    l.countP p ≤ 1 := by
  induction l with
  | nil => simp
  | cons a as ih =>
    rcases List.pairwise_cons.mp hp with ⟨ha, has⟩
    rw [List.countP_cons]
    by_cases hpa : p a = true
    · have hz : as.countP p = 0 := by
        rw [List.countP_eq_zero]
        intro b hb hpb
        exact absurd (hlink a (List.mem_cons_self _ _) b
          (List.mem_cons_of_mem _ hb) hpa hpb) (ha b hb)
      simp [hpa, hz]
    · have hle := ih has (fun a2 ha2 b hb =>
        hlink a2 (List.mem_cons_of_mem _ ha2) b (List.mem_cons_of_mem _ hb))
      simp only [hpa, if_neg]
      simpa using hle

theorem updates_rows_mem {joined : List JoinedRow} {u : JoinedRow}
    (hu : u ∈ updates_rows joined) : u ∈ joined ∧ is_drifting u = true := by
  rw [updates_rows, first_per_key] at hu
  have h2 := mem_sort_by_key.mp hu
  have h3 := (mem_fpk_aux h2).1
  have h4 := mem_stable_sort_desc.mp h3
  exact ⟨(List.mem_filter.mp h4).1, (List.mem_filter.mp h4).2⟩

theorem updates_rows_exists {joined : List JoinedRow} {j : JoinedRow}
    (hj : j ∈ joined) (hd : is_drifting j = true) :
    ∃ u ∈ updates_rows joined, u.join_key = j.join_key := by
  have h1 : j ∈ stable_sort_desc (joined.filter is_drifting) :=
    mem_stable_sort_desc.mpr (List.mem_filter.mpr ⟨hj, hd⟩)
  rcases fpk_aux_exists h1 (List.not_mem_nil _) with ⟨x, hx1, hx2⟩
  rw [updates_rows, first_per_key]
  exact ⟨x, mem_sort_by_key.mpr hx1, hx2⟩

theorem updates_rows_max {joined : List JoinedRow} {u : JoinedRow}
    (hu : u ∈ updates_rows joined) :
    ∀ j ∈ joined, is_drifting j = true → j.join_key = u.join_key →
      j.target_datetime_utc ≤ u.target_datetime_utc := by
  intro j hj hd hk
  rw [updates_rows, first_per_key] at hu
  have hu2 := mem_sort_by_key.mp hu
  exact fpk_aux_max (pairwise_stable_sort_desc _) hu2 j
    (mem_stable_sort_desc.mpr (List.mem_filter.mpr ⟨hj, hd⟩)) hk

theorem updates_rows_countP_le_one {joined : List JoinedRow}
    {p : JoinedRow → Bool}
    (hlink : ∀ a ∈ joined, ∀ b ∈ joined, p a = true → p b = true →
      a.join_key = b.join_key) :
    (updates_rows joined).countP p ≤ 1 := by
  rw [updates_rows, first_per_key, countP_sort_by_key]
  refine countP_le_one_of_pairwise_keys (fpk_aux_pairwise _ _) ?_
  intro a ha b hb hpa hpb
  have ha2 := (List.mem_filter.mp (mem_stable_sort_desc.mp (mem_fpk_aux ha).1)).1
  have hb2 := (List.mem_filter.mp (mem_stable_sort_desc.mp (mem_fpk_aux hb).1)).1
  exact hlink a ha2 b hb2 hpa hpb

theorem capacity_change_eq (j : JoinedRow) :
    capacity_change j =
      |(j.effective_capacity_watts : ℚ) / (new_effective_capacity_watts j : ℚ)| := by
  rw [capacity_change, qDiv_eq]

theorem is_drifting_iff (j : JoinedRow) :
    is_drifting j = true ↔
      ¬ (|capacity_change j - 1| ≤ 2/100 + 1/100000000) := by
  rw [is_drifting, np_isclose, Bool.not_eq_true', decide_eq_false_iff_not,
    qSub_eq, qAdd_eq, qMul_eq]
  have h1 : |(1 : ℚ)| = 1 := abs_one
  rw [h1, mul_one]
  have h2 : (mkRat 1 100000000 : ℚ) = 1/100000000 := by
    rw [Rat.mkRat_eq_div]
    norm_num
  have h3 : (mkRat 2 100 : ℚ) = 2/100 := by
    rw [Rat.mkRat_eq_div]
    norm_num
  rw [h2, h3, add_comm]

theorem mem_dedup_first_aux {α : Type} [DecidableEq α] {seen l : List α} {a : α}
    (ha : a ∈ l) : a ∈ dedup_first_aux seen l ∨ a ∈ seen := by
  induction l generalizing seen with
  | nil => simp at ha
  | cons x xs ih =>
    simp only [dedup_first_aux]
    by_cases h : x ∈ seen
    · rw [if_pos h]
      rcases List.mem_cons.mp ha with rfl | ha2
      · exact Or.inr h
      · exact ih ha2
    · rw [if_neg h]
      rcases List.mem_cons.mp ha with rfl | ha2
      · exact Or.inl (List.mem_cons_self _ _)
      · rcases ih ha2 with h1 | h1
        · exact Or.inl (List.mem_cons_of_mem _ h1)
        · rcases List.mem_cons.mp h1 with rfl | h2
          · exact Or.inl (List.mem_cons_self _ _)
          · exact Or.inr h2

theorem mem_dedup_first {α : Type} [DecidableEq α] {l : List α} {a : α}
    (ha : a ∈ l) : a ∈ dedup_first l := by
  rcases @mem_dedup_first_aux _ _ [] _ _ ha with h | h
  · exact h
  · simp at h

theorem finish_run_registry (t : List Call) (reg : Registry)
    (joined : List JoinedRow) (rows : List DataRow) (config : CountryConfig)
    (failUpdate : String → Bool) :
    (finish_run t reg joined rows config failUpdate).registry = reg := by
  rw [finish_run]
  split
  · split <;> rfl
  · dsimp only
    split <;> rfl

theorem finish_run_trace (t : List Call) (reg : Registry)
    (joined : List JoinedRow) (rows : List DataRow) (config : CountryConfig)
    (failUpdate : String → Bool) :
    ∃ suffix, (finish_run t reg joined rows config failUpdate).trace = t ++ suffix ∧
      ∀ c ∈ suffix, is_update_call c = true ∨ is_obs_call c = true := by
  rw [finish_run]
  split
  · split
    · exact ⟨[], by simp, by simp⟩
    · exact ⟨[], by simp, by simp⟩
  · dsimp only
    split
    · refine ⟨(updates_rows joined).map update_call, rfl, ?_⟩
      intro c hc
      rcases List.mem_map.mp hc with ⟨j, _, rfl⟩
      exact Or.inl rfl
    · refine ⟨(updates_rows joined).map update_call ++
        (observation_groups joined).map
          (fun g => Call.createObservations g.1 (observer_for config rows) g.2),
        by rw [List.append_assoc], ?_⟩
      intro c hc
      rcases List.mem_append.mp hc with hc2 | hc2
      · rcases List.mem_map.mp hc2 with ⟨j, _, rfl⟩
        exact Or.inl rfl
      · rcases List.mem_map.mp hc2 with ⟨g, _, rfl⟩
        exact Or.inr rfl

theorem resolve_registry_observers (reg1 : Registry) (catalog : List SeedRow)
    (country : String) (config : CountryConfig) (persist : Bool) :
    (resolve_locations reg1 catalog country config persist).registry.observers =
      reg1.observers := by
  rw [resolve_locations]
  split
  · split
    · split <;> rfl
    · rfl
  · rfl

theorem resolve_calls_no_write (reg1 : Registry) (catalog : List SeedRow)
    (country : String) (config : CountryConfig) (persist : Bool) :
    ∀ c ∈ (resolve_locations reg1 catalog country config persist).calls,
      is_update_call c = false ∧ is_obs_call c = false ∧
      ∀ n, is_create_observer n c = false := by
  intro c hc
  rw [resolve_locations] at hc
  split at hc
  · split at hc
    · simp only [create_locations_from_csv, List.mem_append, List.mem_map] at hc
      rcases hc with (⟨t, _, rfl⟩ | ⟨s, _, rfl⟩) | ⟨t, _, rfl⟩
      · exact ⟨rfl, rfl, fun n => rfl⟩
      · exact ⟨rfl, rfl, fun n => rfl⟩
      · exact ⟨rfl, rfl, fun n => rfl⟩
    · simp only [List.mem_map] at hc
      rcases hc with ⟨t, _, rfl⟩
      exact ⟨rfl, rfl, fun n => rfl⟩
  · simp only [List.mem_map] at hc
    rcases hc with ⟨t, _, rfl⟩
    exact ⟨rfl, rfl, fun n => rfl⟩

theorem save_of_join_error (reg : Registry) (catalog : List SeedRow)
    (rows : List DataRow) (country : String) (persist : Bool)
    (failUpdate : String → Bool) (k : String)
    (h : join_phase country (get_country_config country)
      (resolve_locations (observer_phase_registry reg (get_country_config country))
        catalog country (get_country_config country) persist).locations rows
      = Except.error k) :
    save_generation_to_data_platform reg catalog rows country persist failUpdate =
      ⟨(Call.listObservers (required_observers_for (get_country_config country)) ::
          (observer_creates reg (get_country_config country)).map Call.createObserver)
        ++ (resolve_locations (observer_phase_registry reg (get_country_config country))
            catalog country (get_country_config country) persist).calls,
       Outcome.keyError k,
       (resolve_locations (observer_phase_registry reg (get_country_config country))
         catalog country (get_country_config country) persist).registry⟩ := by
  rw [save_generation_to_data_platform]
  rw [h]

theorem save_of_join_ok (reg : Registry) (catalog : List SeedRow)
    (rows : List DataRow) (country : String) (persist : Bool)
    (failUpdate : String → Bool) (joined : List JoinedRow)
    (h : join_phase country (get_country_config country)
      (resolve_locations (observer_phase_registry reg (get_country_config country))
        catalog country (get_country_config country) persist).locations rows
      = Except.ok joined) :
    save_generation_to_data_platform reg catalog rows country persist failUpdate =
      finish_run
        ((Call.listObservers (required_observers_for (get_country_config country)) ::
            (observer_creates reg (get_country_config country)).map Call.createObserver)
          ++ (resolve_locations (observer_phase_registry reg (get_country_config country))
              catalog country (get_country_config country) persist).calls)
        (resolve_locations (observer_phase_registry reg (get_country_config country))
          catalog country (get_country_config country) persist).registry
        joined rows (get_country_config country) failUpdate := by
  rw [save_generation_to_data_platform]
  rw [h]

theorem save_trace_shape (reg : Registry) (catalog : List SeedRow)
    (rows : List DataRow) (country : String) (persist : Bool)
    (failUpdate : String → Bool) :
    ∃ suffix,
      (save_generation_to_data_platform reg catalog rows country persist
        failUpdate).trace
        = (Call.listObservers (required_observers_for (get_country_config country)) ::
            (observer_creates reg (get_country_config country)).map Call.createObserver)
          ++ (resolve_locations (observer_phase_registry reg (get_country_config country))
              catalog country (get_country_config country) persist).calls
          ++ suffix ∧
      ∀ c ∈ suffix, is_update_call c = true ∨ is_obs_call c = true := by
  rw [save_generation_to_data_platform]
  split
  · exact ⟨[], by simp, by simp⟩
  · rcases finish_run_trace _ _ _ _ _ _ with ⟨suffix, h1, h2⟩
    refine ⟨suffix, ?_, h2⟩
    rw [h1, List.append_assoc]

theorem save_registry_observers (reg : Registry) (catalog : List SeedRow)
    (rows : List DataRow) (country : String) (persist : Bool)
    (failUpdate : String → Bool) :
    (save_generation_to_data_platform reg catalog rows country persist
      failUpdate).registry.observers
      = reg.observers ++ observer_creates reg (get_country_config country) := by
  rw [save_generation_to_data_platform]
  split
  · rw [resolve_registry_observers]
    rfl
  · rw [finish_run_registry, resolve_registry_observers]
    rfl

theorem save_countP_createObserver (reg : Registry) (catalog : List SeedRow)
    (rows : List DataRow) (country : String) (persist : Bool)
    (failUpdate : String → Bool) (name : String) :
    (save_generation_to_data_platform reg catalog rows country persist
      failUpdate).trace.countP (is_create_observer name)
      = (observer_creates reg (get_country_config country)).countP
          (fun n => n = name) := by
  rcases save_trace_shape reg catalog rows country persist failUpdate with
    ⟨suffix, h1, h2⟩
  rw [h1, List.countP_append, List.countP_append]
  have hr : (resolve_locations (observer_phase_registry reg (get_country_config country))
      catalog country (get_country_config country) persist).calls.countP
      (is_create_observer name) = 0 := by
    rw [List.countP_eq_zero]
    intro c hc
    rw [(resolve_calls_no_write _ _ _ _ _ c hc).2.2 name]
    exact Bool.false_ne_true
  have hs : suffix.countP (is_create_observer name) = 0 := by
    rw [List.countP_eq_zero]
    intro c hc
    rcases h2 c hc with h | h
    · cases c <;> simp_all [is_update_call, is_create_observer]
    · cases c <;> simp_all [is_obs_call, is_create_observer]
  rw [hr, hs, List.countP_cons]
  have hhead : is_create_observer name (Call.listObservers
      (required_observers_for (get_country_config country))) = false := rfl
  rw [hhead]
  simp only [Bool.false_eq_true, if_false, add_zero, List.countP_map]
  have hfun : (is_create_observer name ∘ Call.createObserver)
      = (fun n => decide (n = name)) := rfl
  rw [hfun]

theorem countP_name_le_one_of_nodup {l : List String} (h : l.Nodup)
    (name : String) : l.countP (fun n => n = name) ≤ 1 := by
  induction l with
  | nil => simp
  | cons a as ih =>
    rcases List.nodup_cons.mp h with ⟨ha, has⟩
    rw [List.countP_cons]
    by_cases hc : a = name
    · subst hc
      have hz : as.countP (fun n => n = a) = 0 := by
        rw [List.countP_eq_zero]
        intro b hb hbp
        have hba : b = a := by simpa using hbp
        exact absurd (hba ▸ hb) ha
      simp [hz]
    · have hle := ih has
      simp only [hc, decide_eq_true_eq, if_neg, add_zero]
      simpa using hle

theorem required_observers_nodup (country : String) :
    (required_observers_for (get_country_config country)).Nodup := by
  rw [get_country_config]
  by_cases h1 : country = "nl"
  · rw [if_pos h1]
    decide
  · rw [if_neg h1]
    by_cases h2 : country = "be"
    · rw [if_pos h2]
      decide
    · rw [if_neg h2]
      by_cases h3 : country = "gb"
      · rw [if_pos h3]
        decide
      · rw [if_neg h3]
        decide

/-- C8: the claim asserts that on the direct NL site-database write path a
failing capacity cross-check raises a `DataIntegrityError` before any
write.  The code (`save_generation_to_site_db`, lines 202-207) logs the
failure and `return`s: no row is written, but no exception is raised, so
the run ends as a normal return — refuting the raised-error part of the
claim at a concrete input whose regional capacity sum (200 kW) is twice
the national capacity (100 kW). -/
theorem C8_counterexample :
    validate_nl_capacities fixture_nl_bad_rows (mkRat 1 1000) = false
    ∧ save_generation_to_site_db_nl fixture_nl_bad_rows []
        = ([], SiteOutcome.returned, []) := by
  constructor
  · decide
  · decide

/-- C8 (amended): whenever the NL capacity cross-check fails, the save is
aborted before any database action — no generation row is inserted, no
site created or updated, and the site database is unchanged — but no
exception is raised: the function logs and returns normally. -/
theorem C8_amended (rows : List NLRow) (sites : List (String × ℚ))
    (hbad : validate_nl_capacities rows (mkRat 1 1000) = false) :
    save_generation_to_site_db_nl rows sites
      = ([], SiteOutcome.returned, sites) := by
  rw [save_generation_to_site_db_nl]
  by_cases h : rows.isEmpty
  · rw [if_pos h]
  · rw [if_neg h, hbad]
    simp

/-- C8 witness: the amended theorem applied to the concrete failing rows. -/
theorem C8_witness :
    validate_nl_capacities fixture_nl_bad_rows (mkRat 1 1000) = false
    ∧ save_generation_to_site_db_nl fixture_nl_bad_rows []
        = ([], SiteOutcome.returned, []) :=
  ⟨by decide, C8_amended fixture_nl_bad_rows [] (by decide)⟩

/-- C9: observer provisioning is idempotent.  Running the orchestrator
twice in sequence against the registry produced by the first run (same
country, hence the same required observer-name set) issues zero
`CreateObserver` calls in the second run, and at most one `CreateObserver`
per name across both runs. -/
theorem C9_observer_provisioning_idempotent (reg : Registry)
    (catalog1 catalog2 : List SeedRow) (rows1 rows2 : List DataRow)
    (country : String) (persist1 persist2 : Bool)
    (fail1 fail2 : String → Bool) :
    ∀ name : String,
      (save_generation_to_data_platform
          (save_generation_to_data_platform reg catalog1 rows1 country persist1
            fail1).registry
          catalog2 rows2 country persist2 fail2).trace.countP
          (is_create_observer name) = 0
      ∧ ((save_generation_to_data_platform reg catalog1 rows1 country persist1
            fail1).trace
          ++ (save_generation_to_data_platform
              (save_generation_to_data_platform reg catalog1 rows1 country
                persist1 fail1).registry
              catalog2 rows2 country persist2 fail2).trace).countP
          (is_create_observer name) ≤ 1 := by
  intro name
  have hobs : (save_generation_to_data_platform reg catalog1 rows1 country
      persist1 fail1).registry.observers
      = reg.observers ++ observer_creates reg (get_country_config country) :=
    save_registry_observers reg catalog1 rows1 country persist1 fail1
  have hcr2 : observer_creates
      (save_generation_to_data_platform reg catalog1 rows1 country persist1
        fail1).registry (get_country_config country) = [] := by
    rw [observer_creates, List.filter_eq_nil_iff]
    intro n hn
    have hn2 : n ∈ reg.observers ++ observer_creates reg (get_country_config country) := by
      by_cases hmem : n ∈ reg.observers
      · exact List.mem_append_left _ hmem
      · refine List.mem_append_right _ ?_
        rw [observer_creates]
        exact List.mem_filter.mpr ⟨hn, by simpa using hmem⟩
    rw [hobs] at *
    simp only [decide_eq_true_eq, Decidable.not_not]
    exact hn2
  constructor
  · rw [save_countP_createObserver, hcr2]
    rfl
  · rw [List.countP_append, save_countP_createObserver,
      save_countP_createObserver, hcr2]
    simp only [List.countP_nil, add_zero]
    exact countP_name_le_one_of_nodup
      ((required_observers_nodup country).filter _) name

theorem prefix_no_write (reg : Registry) (catalog : List SeedRow)
    (country : String) (config : CountryConfig) (persist : Bool) :
    ∀ c ∈ (Call.listObservers (required_observers_for config) ::
        (observer_creates reg config).map Call.createObserver)
      ++ (resolve_locations (observer_phase_registry reg config) catalog country
          config persist).calls,
      is_update_call c = false ∧ is_obs_call c = false := by
  intro c hc
  rcases List.mem_append.mp hc with h | h
  · rcases List.mem_cons.mp h with rfl | h2
    · exact ⟨rfl, rfl⟩
    · rcases List.mem_map.mp h2 with ⟨n, _, rfl⟩
      exact ⟨rfl, rfl⟩
  · have hw := resolve_calls_no_write _ _ _ _ _ c h
    exact ⟨hw.1, hw.2.1⟩

theorem be_join_no_valid (locs : List Location) (rows : List DataRow)
    (id_key : String) (h : ∀ r ∈ rows, posCap r = false) :
    be_join locs rows id_key = [] := by
  rw [be_join, List.flatten_eq_nil_iff]
  intro l hl
  rcases List.mem_map.mp hl with ⟨loc, hloc, rfl⟩
  have hf : rows.filter (fun r => posCap r &&
      (r.idVal = MValue.strV (be_loc_join_key id_key loc) : Bool)) = [] := by
    rw [List.filter_eq_nil_iff]
    intro r hr
    rw [h r hr]
    simp
  simp [hf]

theorem num_join_no_valid (locs : List Location) (rows : List DataRow)
    (id_key : String) (h : ∀ r ∈ rows, posCap r = false) :
    num_join locs rows id_key = [] := by
  rw [num_join, List.flatten_eq_nil_iff]
  intro l hl
  rcases List.mem_map.mp hl with ⟨loc, hloc, rfl⟩
  cases hk : num_loc_join_key id_key loc with
  | none => simp [hk]
  | some q =>
    simp only [hk]
    have hf : rows.filter (fun r => posCap r &&
        (r.idVal = MValue.numV q : Bool)) = [] := by
      rw [List.filter_eq_nil_iff]
      intro r hr
      rw [h r hr]
      simp
    rw [hf]
    rfl

theorem join_phase_invalid (country : String) (config : CountryConfig)
    (locs : List Location) (rows : List DataRow)
    (hinv : rows = [] ∨ ∀ r ∈ rows, posCap r = false) :
    join_phase country config locs rows
      = if country = "be" then Except.ok []
        else if locs.isEmpty then Except.error "metadata"
        else Except.ok [] := by
  rw [join_phase]
  by_cases hbe : country = "be"
  · rw [if_pos hbe, if_pos hbe]
    rcases hinv with rfl | hinv
    · simp
    · by_cases hl : locs.isEmpty || rows.isEmpty
      · rw [if_pos hl]
    
      · rw [if_neg hl, be_join_no_valid _ _ _ hinv]
  · rw [if_neg hbe, if_neg hbe]
    by_cases hl : locs.isEmpty
    · rw [if_pos hl, if_pos hl]
    · rw [if_neg hl, if_neg hl]
      by_cases h2 : ((locs_with_key config.id_key locs).isEmpty || rows.isEmpty) = true
      · simp only [h2]
        simp
      · rw [Bool.not_eq_true] at h2
        rcases hinv with rfl | hinv
        · simp at h2
        · have hn := num_join_no_valid (locs_with_key config.id_key locs) rows
            config.id_key hinv
          simp only [h2]
          simp [hn]

theorem finish_run_invalid (t : List Call) (reg : Registry)
    (rows : List DataRow) (config : CountryConfig) (failUpdate : String → Bool)
    (hinv : rows = [] ∨ ∀ r ∈ rows, posCap r = false) :
    finish_run t reg [] rows config failUpdate = ⟨t, Outcome.ok, reg⟩ := by
  have hcond : (rows.isEmpty || !(rows.any posCap)) = true := by
    rcases hinv with rfl | hinv
    · rfl
    · have hany : rows.any posCap = false := by
        rw [List.any_eq_false]
        intro r hr
        rw [hinv r hr]
        simp
      rw [hany]
      simp
  simp only [finish_run]
  simp [hcond]

theorem save_valueError_of_empty_join (reg : Registry) (catalog : List SeedRow)
    (rows : List DataRow) (country : String) (persist : Bool)
    (failUpdate : String → Bool)
    (hne : rows ≠ []) (hpos : rows.any posCap = true)
    (hjoin : join_phase country (get_country_config country)
      (resolve_locations (observer_phase_registry reg (get_country_config country))
        catalog country (get_country_config country) persist).locations rows
      = Except.ok []) :
    save_generation_to_data_platform reg catalog rows country persist failUpdate
      = ⟨(Call.listObservers (required_observers_for (get_country_config country)) ::
            (observer_creates reg (get_country_config country)).map Call.createObserver)
          ++ (resolve_locations (observer_phase_registry reg (get_country_config country))
              catalog country (get_country_config country) persist).calls,
         Outcome.valueError (dedup_first (rows.map (fun r => r.idVal))),
         (resolve_locations (observer_phase_registry reg (get_country_config country))
           catalog country (get_country_config country) persist).registry⟩ := by
  rw [save_of_join_ok reg catalog rows country persist failUpdate [] hjoin]
  have hempty : rows.isEmpty = false := by
    cases rows with
    | nil => exact absurd rfl hne
    | cons a as => rfl
  have hcond : (rows.isEmpty || !(rows.any posCap)) = false := by
    rw [hempty, hpos]
    rfl
  simp only [finish_run]
  simp [hcond]

/-- C3: for a run whose input is non-empty and has at least one
positive-capacity row, if the inner join against the resolved locations
is empty (`Except.ok []`), the run raises the no-matching-locations
configuration error (`ValueError`) whose payload lists the incoming
join-key values — so every unmatched value is named — and the trace holds
no capacity-update and no observation call. -/
theorem C3_config_error_on_unmatched (reg : Registry) (catalog : List SeedRow)
    (rows : List DataRow) (country : String) (persist : Bool)
    (failUpdate : String → Bool)
    (hne : rows ≠ []) (hpos : rows.any posCap = true)
    (hjoin : join_phase country (get_country_config country)
      (resolve_locations (observer_phase_registry reg (get_country_config country))
        catalog country (get_country_config country) persist).locations rows
      = Except.ok []) :
    (save_generation_to_data_platform reg catalog rows country persist
        failUpdate).outcome
      = Outcome.valueError (dedup_first (rows.map (fun r => r.idVal)))
    ∧ (∀ r ∈ rows, r.idVal ∈ dedup_first (rows.map (fun r => r.idVal)))
    ∧ (save_generation_to_data_platform reg catalog rows country persist
        failUpdate).trace.countP is_update_call = 0
    ∧ (save_generation_to_data_platform reg catalog rows country persist
        failUpdate).trace.countP is_obs_call = 0 := by
  rw [save_valueError_of_empty_join reg catalog rows country persist failUpdate
    hne hpos hjoin]
  refine ⟨rfl, ?_, ?_, ?_⟩
  · intro r hr
    exact mem_dedup_first (List.mem_map.mpr ⟨r, hr, rfl⟩)
  · rw [List.countP_eq_zero]
    intro c hc
    rw [(prefix_no_write reg catalog country (get_country_config country)
      persist c hc).1]
    exact Bool.false_ne_true
  · rw [List.countP_eq_zero]
    intro c hc
    rw [(prefix_no_write reg catalog country (get_country_config country)
      persist c hc).2]
    exact Bool.false_ne_true

/-- C3 witness: a GB run against a registry whose only location carries
`gsp_id` 1 while the single valid incoming row carries `gsp_id` 7; the
theorem applies and the run ends in the configuration error naming the
value 7, with no write call. -/
theorem C3_witness :
    ([{ idVal := MValue.numV 7, capacity_kw := some 1000,
        solar_generation_kw := 500, target_datetime_utc := 10,
        regime := "in-day" }] : List DataRow) ≠ []
    ∧ (save_generation_to_data_platform (fixture_gb_registry 1000000) []
        [{ idVal := MValue.numV 7, capacity_kw := some 1000,
           solar_generation_kw := 500, target_datetime_utc := 10,
           regime := "in-day" }] "gb" true (fun _ => false)).outcome
      = Outcome.valueError [MValue.numV 7] :=
  ⟨by decide,
   (C3_config_error_on_unmatched (fixture_gb_registry 1000000) []
     [{ idVal := MValue.numV 7, capacity_kw := some 1000,
        solar_generation_kw := 500, target_datetime_utc := 10,
        regime := "in-day" }] "gb" true (fun _ => false)
     (by decide) (by decide) (by decide)).1⟩

/-- C4 fails as stated: for a GB run against a registry with zero
locations and an EMPTY input table, the claim demands a successful return
with no calls beyond observer provisioning; the code builds the location
frame from an empty list, which has no columns, and crashes with
`KeyError("metadata")` before reaching the silent-return branch. -/
theorem C4_counterexample :
    (save_generation_to_data_platform
        ⟨["pvlive_in_day", "pvlive_day_after"], []⟩ [] [] "gb" true
        (fun _ => false)).outcome
      = Outcome.keyError "metadata" := by decide

/-- C4 (amended): for every run whose input table is empty or all of whose
rows have non-positive or missing capacity, no capacity-update call and no
observation call is issued; the run returns successfully provided the
resolved location list is non-empty or the country is BE (with an empty
resolved location list outside BE the run instead fails with the pandas
`KeyError`); observer provisioning, location listing and — for NL/BE with
an empty registry — bootstrap `CreateLocation` calls may still occur. -/
theorem C4_amended (reg : Registry) (catalog : List SeedRow)
    (rows : List DataRow) (country : String) (persist : Bool)
    (failUpdate : String → Bool)
    (hinv : rows = [] ∨ ∀ r ∈ rows, posCap r = false) :
    (save_generation_to_data_platform reg catalog rows country persist
        failUpdate).trace.countP is_update_call = 0
    ∧ (save_generation_to_data_platform reg catalog rows country persist
        failUpdate).trace.countP is_obs_call = 0
    ∧ ((country = "be" ∨
        (resolve_locations (observer_phase_registry reg (get_country_config country))
          catalog country (get_country_config country) persist).locations ≠ []) →
        (save_generation_to_data_platform reg catalog rows country persist
          failUpdate).outcome = Outcome.ok) := by
  have hjoin := join_phase_invalid country (get_country_config country)
    (resolve_locations (observer_phase_registry reg (get_country_config country))
      catalog country (get_country_config country) persist).locations rows hinv
  by_cases hbe : country = "be"
  · rw [if_pos hbe] at hjoin
    rw [save_of_join_ok reg catalog rows country persist failUpdate [] hjoin,
      finish_run_invalid _ _ _ _ _ hinv]
    refine ⟨?_, ?_, fun _ => rfl⟩
    · rw [List.countP_eq_zero]
      intro c hc
      rw [(prefix_no_write reg catalog country (get_country_config country)
        persist c hc).1]
      exact Bool.false_ne_true
    · rw [List.countP_eq_zero]
      intro c hc
      rw [(prefix_no_write reg catalog country (get_country_config country)
        persist c hc).2]
      exact Bool.false_ne_true
  · rw [if_neg hbe] at hjoin
    by_cases hl : (resolve_locations (observer_phase_registry reg
        (get_country_config country)) catalog country (get_country_config country)
        persist).locations.isEmpty
    · rw [if_pos hl] at hjoin
      rw [save_of_join_error reg catalog rows country persist failUpdate
        "metadata" hjoin]
      refine ⟨?_, ?_, ?_⟩
      · rw [List.countP_eq_zero]
        intro c hc
        rw [(prefix_no_write reg catalog country (get_country_config country)
          persist c hc).1]
        exact Bool.false_ne_true
      · rw [List.countP_eq_zero]
        intro c hc
        rw [(prefix_no_write reg catalog country (get_country_config country)
          persist c hc).2]
        exact Bool.false_ne_true
      · intro hor
        rcases hor with h | h
        · exact absurd h hbe
        · exact absurd (List.isEmpty_iff.mp hl) h
    · rw [if_neg hl] at hjoin
      rw [save_of_join_ok reg catalog rows country persist failUpdate [] hjoin,
        finish_run_invalid _ _ _ _ _ hinv]
      refine ⟨?_, ?_, fun _ => rfl⟩
      · rw [List.countP_eq_zero]
        intro c hc
        rw [(prefix_no_write reg catalog country (get_country_config country)
          persist c hc).1]
        exact Bool.false_ne_true
      · rw [List.countP_eq_zero]
        intro c hc
        rw [(prefix_no_write reg catalog country (get_country_config country)
          persist c hc).2]
        exact Bool.false_ne_true

/-- C4 witness: the amended theorem applied to a GB run with a resolved
location and an empty input: no write call, successful return. -/
theorem C4_witness :
    (save_generation_to_data_platform (fixture_gb_registry 1000000) [] []
        "gb" true (fun _ => false)).trace.countP is_update_call = 0
    ∧ (save_generation_to_data_platform (fixture_gb_registry 1000000) [] []
        "gb" true (fun _ => false)).outcome = Outcome.ok :=
  ⟨(C4_amended (fixture_gb_registry 1000000) [] [] "gb" true (fun _ => false)
      (Or.inl rfl)).1,
   (C4_amended (fixture_gb_registry 1000000) [] [] "gb" true (fun _ => false)
      (Or.inl rfl)).2.2 (Or.inr (by decide))⟩

theorem mem_be_join {locs : List Location} {rows : List DataRow}
    {id_key : String} {j : JoinedRow} :
    j ∈ be_join locs rows id_key ↔
      ∃ loc ∈ locs, ∃ r ∈ rows, posCap r = true ∧
        r.idVal = MValue.strV (be_loc_join_key id_key loc) ∧
        j = mk_joined (MValue.strV (be_loc_join_key id_key loc)) loc r := by
  rw [be_join, List.mem_flatten]
  constructor
  · rintro ⟨sub, hsub, hj⟩
    rcases List.mem_map.mp hsub with ⟨loc, hloc, rfl⟩
    rcases List.mem_map.mp hj with ⟨r, hr, rfl⟩
    rcases List.mem_filter.mp hr with ⟨hr2, hpred⟩
    simp only [Bool.and_eq_true] at hpred
    rcases hpred with ⟨hp1, hp2⟩
    exact ⟨loc, hloc, r, hr2, hp1, by simpa using hp2, rfl⟩
  · rintro ⟨loc, hloc, r, hr, hp, hk, rfl⟩
    refine ⟨_, List.mem_map.mpr ⟨loc, hloc, rfl⟩, ?_⟩
    exact List.mem_map.mpr ⟨r, List.mem_filter.mpr ⟨hr, by simp [hp, hk]⟩, rfl⟩

theorem mem_num_join {locs : List Location} {rows : List DataRow}
    {id_key : String} {j : JoinedRow} :
    j ∈ num_join locs rows id_key ↔
      ∃ loc ∈ locs, ∃ q, num_loc_join_key id_key loc = some q ∧
        ∃ r ∈ rows, posCap r = true ∧ r.idVal = MValue.numV q ∧
          j = mk_joined (MValue.numV q) loc r := by
  rw [num_join, List.mem_flatten]
  constructor
  · rintro ⟨sub, hsub, hj⟩
    rcases List.mem_map.mp hsub with ⟨loc, hloc, rfl⟩
    cases hk : num_loc_join_key id_key loc with
    | none =>
      rw [hk] at hj
      simp at hj
    | some q =>
      rw [hk] at hj
      rcases List.mem_map.mp hj with ⟨r, hr, rfl⟩
      rcases List.mem_filter.mp hr with ⟨hr2, hpred⟩
      simp only [Bool.and_eq_true] at hpred
      rcases hpred with ⟨hp1, hp2⟩
      exact ⟨loc, hloc, q, hk, r, hr2, hp1, by simpa using hp2, rfl⟩
  · rintro ⟨loc, hloc, q, hk, r, hr, hp, hv, rfl⟩
    refine ⟨_, List.mem_map.mpr ⟨loc, hloc, rfl⟩, ?_⟩
    rw [hk]
    exact List.mem_map.mpr ⟨r, List.mem_filter.mpr ⟨hr, by simp [hp, hv]⟩, rfl⟩

/-- C5 fails as stated: in the BE join only the location side is trimmed
and case-folded; the reading side is used verbatim.  A reading whose
region key `"FLANDERS"` differs from the location's key `"flanders"` only
in letter case is NOT matched: the full run on one such valid row ends in
the no-matching-locations error instead of writing an observation. -/
theorem C5_counterexample :
    fixture_be_row_upper.idVal = MValue.strV "FLANDERS"
    ∧ be_loc_join_key "region" fixture_be_loc = "flanders"
    ∧ (save_generation_to_data_platform fixture_be_registry []
        [fixture_be_row_upper] "be" true (fun _ => false)).outcome
      = Outcome.valueError [MValue.strV "FLANDERS"] :=
  ⟨by decide, by decide, by decide⟩

/-- C5 (amended): join-key normalization is one-sided.  For text keys
(BE), the location-side key is trimmed and case-folded (see the second
conjunct: a location whose raw metadata key is `"  FlAnders "` gets the
join key `"flanders"`), and a reading joins a location iff its RAW key
equals the location's normalized key — so a location key differing in
case or whitespace still matches a lower-case trimmed reading key, but a
reading key is never normalized.  For numeric keys (NL/GB) a reading
joins iff its key column equals the location's numeric metadata value
exactly. -/
theorem C5_amended (locs : List Location) (rows : List DataRow)
    (id_key : String) (j : JoinedRow) :
    (j ∈ be_join locs rows id_key ↔
      ∃ loc ∈ locs, ∃ r ∈ rows, posCap r = true ∧
        r.idVal = MValue.strV (be_loc_join_key id_key loc) ∧
        j = mk_joined (MValue.strV (be_loc_join_key id_key loc)) loc r)
    ∧ be_loc_join_key "region" fixture_be_loc_messy = "flanders"
    ∧ (j ∈ num_join locs rows id_key ↔
      ∃ loc ∈ locs, ∃ q, num_loc_join_key id_key loc = some q ∧
        ∃ r ∈ rows, posCap r = true ∧ r.idVal = MValue.numV q ∧
          j = mk_joined (MValue.numV q) loc r) :=
  ⟨mem_be_join, by decide, mem_num_join⟩

theorem finish_run_obs_name (t : List Call) (reg : Registry)
    (joined : List JoinedRow) (rows : List DataRow) (config : CountryConfig)
    (failUpdate : String → Bool)
    (hpre : ∀ c ∈ t, is_obs_call c = false) :
    ∀ u o vs, Call.createObservations u o vs ∈
      (finish_run t reg joined rows config failUpdate).trace →
      o = observer_for config rows := by
  intro u o vs hmem
  simp only [finish_run] at hmem
  split at hmem
  · split at hmem
    · have := hpre _ hmem
      simp [is_obs_call] at this
    · have := hpre _ hmem
      simp [is_obs_call] at this
  · split at hmem
    · simp only [List.mem_append] at hmem
      rcases hmem with h | h
      · have := hpre _ h
        simp [is_obs_call] at this
      · rcases List.mem_map.mp h with ⟨jj, _, hje⟩
        simp [update_call] at hje
    · simp only [List.mem_append] at hmem
      rcases hmem with (h | h) | h
      · have := hpre _ h
        simp [is_obs_call] at this
      · rcases List.mem_map.mp h with ⟨jj, _, hje⟩
        simp [update_call] at hje
      · rcases List.mem_map.mp h with ⟨g, _, hge⟩
        have ho : o = observer_for config rows := by
          cases hge
          rfl
        exact ho

theorem save_obs_call_name (reg : Registry) (catalog : List SeedRow)
    (rows : List DataRow) (country : String) (persist : Bool)
    (failUpdate : String → Bool) :
    ∀ u o vs, Call.createObservations u o vs ∈
      (save_generation_to_data_platform reg catalog rows country persist
        failUpdate).trace →
      o = observer_for (get_country_config country) rows := by
  intro u o vs hmem
  cases hjp : join_phase country (get_country_config country)
      (resolve_locations (observer_phase_registry reg (get_country_config country))
        catalog country (get_country_config country) persist).locations rows with
  | error k =>
    rw [save_of_join_error reg catalog rows country persist failUpdate k hjp]
      at hmem
    have := (prefix_no_write reg catalog country (get_country_config country)
      persist _ hmem).2
    simp [is_obs_call] at this
  | ok joined =>
    rw [save_of_join_ok reg catalog rows country persist failUpdate joined hjp]
      at hmem
    refine finish_run_obs_name _ _ joined rows _ failUpdate ?_ u o vs hmem
    intro c hc
    exact (prefix_no_write reg catalog country (get_country_config country)
      persist c hc).2

/-- C7 fails as stated: a GB run whose input rows carry TWO distinct
regime values (`"in-day"` and `"day-after"`) is not rejected — the claim
demands a configuration error — but completes successfully, writing all
observations under the observer name derived from the regime of the
first row only. -/
theorem C7_counterexample :
    fixture_rows_two_regimes.map (fun r => r.regime) = ["in-day", "day-after"]
    ∧ (save_generation_to_data_platform (fixture_gb_registry 1000000) []
        fixture_rows_two_regimes "gb" true (fun _ => false)).outcome
      = Outcome.ok
    ∧ Call.createObservations "uuid-1" "pvlive_in_day" [(10, 500000), (20, 600000)]
        ∈ (save_generation_to_data_platform (fixture_gb_registry 1000000) []
            fixture_rows_two_regimes "gb" true (fun _ => false)).trace :=
  ⟨by decide, by decide, by decide⟩

/-- C7 (amended): when the observer name is derived from the data (GB),
no single-valuedness assertion is made.  The run derives the observer
name from the `regime` field of the FIRST input row
(`data_df["regime"].values[0]`) and every `CreateObservations` call of
the run carries exactly that one derived name, even when the regime
field is multi-valued across the rows. -/
theorem C7_amended (reg : Registry) (catalog : List SeedRow)
    (rows : List DataRow) (country : String) (persist : Bool)
    (failUpdate : String → Bool)
    (hderived : (get_country_config country).observer_name = none) :
    (∀ r rest, rows = r :: rest →
      observer_for (get_country_config country) rows
        = "pvlive_" ++ str_replace_dash r.regime)
    ∧ (∀ u o vs, Call.createObservations u o vs ∈
        (save_generation_to_data_platform reg catalog rows country persist
          failUpdate).trace →
        o = observer_for (get_country_config country) rows) := by
  constructor
  · intro r rest hrows
    subst hrows
    rw [observer_for, hderived]
  · exact save_obs_call_name reg catalog rows country persist failUpdate

/-- C7 witness: the amended theorem applied to the two-regime GB run; the
derived observer name is the first row's. -/
theorem C7_witness :
    (get_country_config "gb").observer_name = none
    ∧ observer_for (get_country_config "gb") fixture_rows_two_regimes
        = "pvlive_in_day" := by
  refine ⟨by decide, ?_⟩
  have h := (C7_amended (fixture_gb_registry 1000000) [] fixture_rows_two_regimes
    "gb" true (fun _ => false) (by decide)).1
  rw [h { idVal := MValue.numV 1, capacity_kw := some 1000,
          solar_generation_kw := 500, target_datetime_utc := 10,
          regime := "in-day" }
        [{ idVal := MValue.numV 1, capacity_kw := some 1000,
           solar_generation_kw := 600, target_datetime_utc := 20,
           regime := "day-after" }] rfl]
  decide

/-- C1 fails as stated: in a GB run with one drifting matched location
whose `UpdateLocation` call fails, the engine re-raises the failure right
after the update group settles (`_execute_async_tasks` with
`ignore_exceptions=False`), so the observation phase never runs: the
trace holds the one update call and NO `CreateObservations` call, while
the claim demands an observation call for every matched location before
any error is surfaced. -/
theorem C1_counterexample :
    (save_generation_to_data_platform (fixture_gb_registry 2000000) []
        [fixture_row_one] "gb" true (fun _ => true)).outcome
      = Outcome.transportError
    ∧ (save_generation_to_data_platform (fixture_gb_registry 2000000) []
        [fixture_row_one] "gb" true (fun _ => true)).trace.countP
        is_update_call = 1
    ∧ (save_generation_to_data_platform (fixture_gb_registry 2000000) []
        [fixture_row_one] "gb" true (fun _ => true)).trace.countP
        is_obs_call = 0 :=
  ⟨by decide, by decide, by decide⟩

/-- C1 (amended): when the capacity-update group contains a failing call,
the whole group is still issued — the trace ends with one
`UpdateLocation` call per selected update row, so other locations'
updates in the same group complete — but the run surfaces the transport
error immediately after the group settles: the observation phase does not
run and no `CreateObservations` call is issued. -/
theorem C1_amended (t : List Call) (reg : Registry) (joined : List JoinedRow)
    (rows : List DataRow) (config : CountryConfig) (failUpdate : String → Bool)
    (hfail : ∃ j ∈ updates_rows joined, failUpdate j.location_uuid = true) :
    finish_run t reg joined rows config failUpdate
      = ⟨t ++ (updates_rows joined).map update_call, Outcome.transportError,
         reg⟩ := by
  rcases hfail with ⟨j, hj, hfj⟩
  have hjj : j ∈ joined := (updates_rows_mem hj).1
  have hne : joined.isEmpty = false := by
    cases joined with
    | nil => simp at hjj
    | cons a as => rfl
  have hany : (updates_rows joined).any (fun x => failUpdate x.location_uuid)
      = true := List.any_eq_true.mpr ⟨j, hj, hfj⟩
  simp only [finish_run]
  simp [hne, hany]

/-- C1 witness: the amended theorem applied to a single drifting joined
row whose update call fails. -/
theorem C1_witness :
    finish_run [] ⟨[], []⟩ [fixture_joined_drift] [] gbConfig (fun _ => true)
      = ⟨(updates_rows [fixture_joined_drift]).map update_call,
         Outcome.transportError, ⟨[], []⟩⟩ :=
  C1_amended [] ⟨[], []⟩ [fixture_joined_drift] [] gbConfig (fun _ => true)
    ⟨fixture_joined_drift, by decide, rfl⟩

/-- C2 fails as stated at the tolerance boundary: the code tests drift
with `np.isclose(ratio, 1.0, rtol=0.02)`, whose default ABSOLUTE
tolerance `1e-8` is added to the 2% band.  For a joined row with registry
capacity 102000000005 W and reported capacity 100000000000 W the ratio
exceeds 1.02 (so the claim demands an update command), yet the row is
inside `0.02 + 1e-8` and no command is emitted. -/
theorem C2_counterexample :
    |capacity_change fixture_joined_atol - 1| > 2/100
    ∧ location_rows [fixture_joined_atol] "L" ≠ []
    ∧ updates_rows [fixture_joined_atol] = [] := by
  refine ⟨?_, by decide, by decide⟩
  have h : capacity_change fixture_joined_atol = mkRat 20400000001 20000000000 := by
    set_option maxRecDepth 10000 in decide
  have h2 : (mkRat 20400000001 20000000000 : ℚ) = 20400000001/20000000000 := by
    rw [Rat.mkRat_eq_div]
    norm_num
  rw [h, h2]
  rw [abs_of_pos (by norm_num : (0 : ℚ) < 20400000001/20000000000 - 1)]
  norm_num

/-- C2 (amended): with the drift test as implemented —
`|ratio − 1| > 0.02 + 1e-8` (numpy's relative plus default absolute
tolerance) — and provided the joined rows' join keys separate locations
(each key belongs to exactly one location, as the join produces), the
claim holds: a location with at least one joined reading receives a
command iff one of its rows is drifting, at most one command per location
is emitted, the emitted command's row is a drifting row of the location
with maximal `timestamp_utc` (carrying that row's reported capacity and
timestamp), a reported capacity within 2% of the registry value never
yields a command, and the concrete 5e6/10e6/2e6 vs 50e6 scenario emits
exactly one command carrying 2e6 W at the latest timestamp. -/
theorem C2_amended :
    updates_rows fixture_joined_example
      = [{ join_key := MValue.numV 1, location_uuid := "L", location_name := "L",
           effective_capacity_watts := 50000000, capacity_kw := 2000,
           solar_generation_kw := 0, target_datetime_utc := 3 }]
    ∧ ∀ (joined : List JoinedRow) (uuid : String),
        (∀ a ∈ joined, ∀ b ∈ joined,
          (a.join_key = b.join_key ↔ a.location_uuid = b.location_uuid)) →
        location_rows joined uuid ≠ [] →
        (((∃ j ∈ location_rows joined uuid, is_drifting j = true) ↔
          (∃ u ∈ updates_rows joined, u.location_uuid = uuid))
        ∧ (updates_rows joined).countP (fun u => u.location_uuid = uuid) ≤ 1
        ∧ (∀ u ∈ updates_rows joined, u.location_uuid = uuid →
            u ∈ location_rows joined uuid ∧ is_drifting u = true ∧
            ¬ (|capacity_change u - 1| ≤ 2/100 + 1/100000000) ∧
            ∀ j ∈ location_rows joined uuid, is_drifting j = true →
              j.target_datetime_utc ≤ u.target_datetime_utc)
        ∧ ((∀ j ∈ location_rows joined uuid, |capacity_change j - 1| ≤ 2/100) →
            ¬ ∃ u ∈ updates_rows joined, u.location_uuid = uuid)) := by
  refine ⟨by decide, ?_⟩
  intro joined uuid hkey hne
  have hmemloc : ∀ j : JoinedRow,
      j ∈ location_rows joined uuid ↔ (j ∈ joined ∧ j.location_uuid = uuid) := by
    intro j
    rw [location_rows, List.mem_filter]
    simp
  refine ⟨⟨?_, ?_⟩, ?_, ?_, ?_⟩
  · rintro ⟨j, hj, hd⟩
    rcases (hmemloc j).mp hj with ⟨hj1, hj2⟩
    rcases updates_rows_exists hj1 hd with ⟨u, hu, hk⟩
    have hu1 := (updates_rows_mem hu).1
    have huj : u.location_uuid = j.location_uuid := (hkey u hu1 j hj1).mp hk
    exact ⟨u, hu, huj.trans hj2⟩
  · rintro ⟨u, hu, huid⟩
    have h1 := updates_rows_mem hu
    exact ⟨u, (hmemloc u).mpr ⟨h1.1, huid⟩, h1.2⟩
  · refine updates_rows_countP_le_one ?_
    intro a ha b hb hpa hpb
    have ha2 : a.location_uuid = uuid := by simpa using hpa
    have hb2 : b.location_uuid = uuid := by simpa using hpb
    exact (hkey a ha b hb).mpr (ha2.trans hb2.symm)
  · intro u hu huid
    have h1 := updates_rows_mem hu
    refine ⟨(hmemloc u).mpr ⟨h1.1, huid⟩, h1.2, (is_drifting_iff u).mp h1.2, ?_⟩
    intro j hj hd
    rcases (hmemloc j).mp hj with ⟨hj1, hj2⟩
    have hk : j.join_key = u.join_key :=
      (hkey j hj1 u h1.1).mpr (hj2.trans huid.symm)
    exact updates_rows_max hu j hj1 hd hk
  · rintro hwithin ⟨u, hu, huid⟩
    have h1 := updates_rows_mem hu
    have hloc : u ∈ location_rows joined uuid := (hmemloc u).mpr ⟨h1.1, huid⟩
    have hin := hwithin u hloc
    refine (is_drifting_iff u).mp h1.2 ?_
    calc |capacity_change u - 1| ≤ 2/100 := hin
    _ ≤ 2/100 + 1/100000000 := by norm_num

/-- C2 witness: the amended theorem applied to the concrete three-reading
scenario — exactly one command is selected, the reading of 2000 kW (2e6 W)
at the latest timestamp. -/
theorem C2_witness :
    updates_rows fixture_joined_example
      = [{ join_key := MValue.numV 1, location_uuid := "L", location_name := "L",
           effective_capacity_watts := 50000000, capacity_kw := 2000,
           solar_generation_kw := 0, target_datetime_utc := 3 }]
    ∧ (updates_rows fixture_joined_example).countP
        (fun u => u.location_uuid = "L") ≤ 1 :=
  ⟨C2_amended.1,
   (C2_amended.2 fixture_joined_example "L" (by decide) (by decide)).2.1⟩

theorem resolve_calls_bootstrap (reg1 : Registry) (catalog : List SeedRow)
    (country : String) (config : CountryConfig) (persist : Bool)
    (hc : country = "nl" ∨ country = "be")
    (hl1 : list_locations reg1.locations config.location_type country = []) :
    (resolve_locations reg1 catalog country config persist).calls.filter
        is_create_location
      = (catalog.filter (fun s => (s.country_code = country : Bool))).map
          (seed_create_call country config.id_key) := by
  rw [resolve_locations, if_pos hc, if_pos (by rw [hl1]; rfl)]
  have hfl : (config.location_type.map Call.listLocations).filter
      is_create_location = [] := by
    rw [List.filter_eq_nil_iff]
    intro c hc2
    rcases List.mem_map.mp hc2 with ⟨t, _, rfl⟩
    simp [is_create_location]
  have hfc : ((catalog.filter (fun s => (s.country_code = country : Bool))).map
      (seed_create_call country config.id_key)).filter is_create_location
      = (catalog.filter (fun s => (s.country_code = country : Bool))).map
          (seed_create_call country config.id_key) := by
    rw [List.filter_eq_self]
    intro c hc2
    rcases List.mem_map.mp hc2 with ⟨s, _, rfl⟩
    rfl
  simp only [create_locations_from_csv, List.filter_append, hfl, hfc]
  simp

/-- C6 fails as stated: when the re-fetch after bootstrap still returns
zero locations (here: an NL run whose seed-catalog creation is not yet
visible to the immediate re-query), the claim demands that the run
proceeds as a no-op without raising; the code instead reaches the NL/GB
join branch with a column-less empty location frame and raises
`KeyError("metadata")`.  The trace confirms the bootstrap went through:
exactly one `CreateLocation` was issued for the one NL seed entry. -/
theorem C6_counterexample :
    (save_generation_to_data_platform ⟨["nednl"], []⟩ [fixture_nl_seed]
        [fixture_nl_row] "nl" false (fun _ => false)).outcome
      = Outcome.keyError "metadata"
    ∧ seed_create_call "nl" "region_id" fixture_nl_seed
        ∈ (save_generation_to_data_platform ⟨["nednl"], []⟩ [fixture_nl_seed]
            [fixture_nl_row] "nl" false (fun _ => false)).trace
    ∧ (save_generation_to_data_platform ⟨["nednl"], []⟩ [fixture_nl_seed]
        [fixture_nl_row] "nl" false (fun _ => false)).trace.countP
        is_create_location = 1 :=
  ⟨by decide, by decide, by decide⟩

/-- C6 (amended): for a bootstrap country (NL, BE) with zero listed
locations, exactly one `CreateLocation` is issued per seed-catalog entry
of that country (with the seed's name, coordinates, join-key value, the
large default capacity and the fixed historical `valid_from`, as
`seed_create_call` packages them), and the run proceeds against the
re-fetched locations.  If the re-fetch still returns zero locations the
run does NOT proceed as a silent no-op in general: for NL it fails with
the pandas `KeyError`; for BE it returns silently only when the input is
empty or all non-positive-capacity, and raises the
no-matching-locations error when the input has a positive-capacity row. -/
theorem C6_amended (reg : Registry) (catalog : List SeedRow)
    (rows : List DataRow) (country : String) (persist : Bool)
    (failUpdate : String → Bool)
    (hc : country = "nl" ∨ country = "be")
    (hempty : list_locations reg.locations
      (get_country_config country).location_type country = []) :
    ((resolve_locations (observer_phase_registry reg (get_country_config country))
        catalog country (get_country_config country) persist).calls.filter
        is_create_location
      = (catalog.filter (fun s => (s.country_code = country : Bool))).map
          (seed_create_call country (get_country_config country).id_key))
    ∧ ((resolve_locations (observer_phase_registry reg (get_country_config country))
        catalog country (get_country_config country) persist).locations = [] →
        (country = "nl" →
          (save_generation_to_data_platform reg catalog rows country persist
            failUpdate).outcome = Outcome.keyError "metadata")
        ∧ (country = "be" →
            ((rows = [] ∨ ∀ r ∈ rows, posCap r = false) →
              (save_generation_to_data_platform reg catalog rows country persist
                failUpdate).outcome = Outcome.ok)
            ∧ (rows ≠ [] → rows.any posCap = true →
              (save_generation_to_data_platform reg catalog rows country persist
                failUpdate).outcome
                = Outcome.valueError (dedup_first (rows.map (fun r => r.idVal)))))) := by
  constructor
  · exact resolve_calls_bootstrap _ catalog country (get_country_config country)
      persist hc hempty
  · intro hrl
    constructor
    · intro hnl
      subst hnl
      have hjoin : join_phase "nl" (get_country_config "nl")
          (resolve_locations (observer_phase_registry reg (get_country_config "nl"))
            catalog "nl" (get_country_config "nl") persist).locations rows
          = Except.error "metadata" := by
        rw [hrl]
        simp [join_phase]
      rw [save_of_join_error reg catalog rows "nl" persist failUpdate
        "metadata" hjoin]
    · intro hbe
      subst hbe
      have hjoin : join_phase "be" (get_country_config "be")
          (resolve_locations (observer_phase_registry reg (get_country_config "be"))
            catalog "be" (get_country_config "be") persist).locations rows
          = Except.ok [] := by
        rw [hrl]
        simp [join_phase]
      constructor
      · intro hinv
        rw [save_of_join_ok reg catalog rows "be" persist failUpdate [] hjoin,
          finish_run_invalid _ _ _ _ _ hinv]
      · intro hne hpos
        rw [save_valueError_of_empty_join reg catalog rows "be" persist
          failUpdate hne hpos hjoin]

/-- C6 witness: the amended theorem applied to a BE run with an empty
registry and a catalog holding only an NL seed entry: zero BE
`CreateLocation` calls are issued (one per BE entry of the catalog — there
are none), the re-fetch stays empty, and the one valid row makes the run
raise the no-matching-locations error. -/
theorem C6_witness :
    (resolve_locations (observer_phase_registry ⟨["elia_be"], []⟩
        (get_country_config "be")) [fixture_nl_seed] "be"
        (get_country_config "be") true).calls.filter is_create_location
      = ([fixture_nl_seed].filter (fun s => (s.country_code = "be" : Bool))).map
          (seed_create_call "be" (get_country_config "be").id_key)
    ∧ (save_generation_to_data_platform ⟨["elia_be"], []⟩ [fixture_nl_seed]
        [fixture_be_row_upper] "be" true (fun _ => false)).outcome
      = Outcome.valueError
          (dedup_first ([fixture_be_row_upper].map (fun r => r.idVal))) :=
  ⟨(C6_amended ⟨["elia_be"], []⟩ [fixture_nl_seed] [fixture_be_row_upper] "be"
      true (fun _ => false) (Or.inr rfl) (by decide)).1,
   (((C6_amended ⟨["elia_be"], []⟩ [fixture_nl_seed] [fixture_be_row_upper] "be"
      true (fun _ => false) (Or.inr rfl) (by decide)).2 (by decide)).2 rfl).2
     (by decide) (by decide)⟩

/-- C10 fails in its final consequence: for the unrecognized country code
`"fr"`, the configuration does fall back to GB and the location filter
does require an exact `"fr"` tag — but a non-empty positive-capacity
input against a registry whose only location is untagged then yields ZERO
resolved locations, and the run crashes with the pandas
`KeyError("metadata")` instead of ending in the no-matching-locations
error the claim names. -/
theorem C10_counterexample :
    [fixture_row_one].any posCap = true
    ∧ (save_generation_to_data_platform
        ⟨["pvlive_in_day", "pvlive_day_after"], [fixture_gb_untagged_loc]⟩ []
        [fixture_row_one] "fr" true (fun _ => false)).outcome
      = Outcome.keyError "metadata" :=
  ⟨by decide, by decide⟩

/-- C10 (amended): for every country code outside gb/nl/be the engine
falls back to the GB configuration (pvlive observers, `gsp_id` join key)
rather than rejecting the country; location filtering keeps a location
iff its country tag equals the code exactly (the missing-tag rule is
GB-only).  Consequently a run that resolves zero locations fails with the
pandas `KeyError` while preparing the location frame, and a non-empty
positive-capacity input reaches the no-matching-locations error exactly
when at least one location bears the tag but the join is empty. -/
theorem C10_amended (country : String) (reg : Registry) (catalog : List SeedRow)
    (rows : List DataRow) (persist : Bool) (failUpdate : String → Bool)
    (h1 : country ≠ "gb") (h2 : country ≠ "nl") (h3 : country ≠ "be") :
    get_country_config country = gbConfig
    ∧ (∀ (locs : List Location) (ltypes : List String) (loc : Location),
        loc ∈ list_locations locs ltypes country ↔
          (loc ∈ (ltypes.map (fun t =>
              locs.filter (fun l => l.location_type = t))).flatten
            ∧ loc_country loc = some country))
    ∧ ((resolve_locations (observer_phase_registry reg (get_country_config country))
          catalog country (get_country_config country) persist).locations = [] →
        (save_generation_to_data_platform reg catalog rows country persist
          failUpdate).outcome = Outcome.keyError "metadata")
    ∧ (rows ≠ [] → rows.any posCap = true →
        join_phase country (get_country_config country)
          (resolve_locations (observer_phase_registry reg (get_country_config country))
            catalog country (get_country_config country) persist).locations rows
          = Except.ok [] →
        (save_generation_to_data_platform reg catalog rows country persist
          failUpdate).outcome
          = Outcome.valueError (dedup_first (rows.map (fun r => r.idVal)))) := by
  refine ⟨?_, ?_, ?_, ?_⟩
  · rw [get_country_config, if_neg h2, if_neg h3, if_neg h1]
  · intro locs ltypes loc
    rw [list_locations, List.mem_filter]
    simp [country_filter_keep, h1]
  · intro hrl
    have hjoin : join_phase country (get_country_config country)
        (resolve_locations (observer_phase_registry reg (get_country_config country))
          catalog country (get_country_config country) persist).locations rows
        = Except.error "metadata" := by
      rw [hrl]
      simp [join_phase, h3]
    rw [save_of_join_error reg catalog rows country persist failUpdate
      "metadata" hjoin]
  · intro hne hpos hjoin
    rw [save_valueError_of_empty_join reg catalog rows country persist
      failUpdate hne hpos hjoin]

/-- C10 witness: the amended theorem applied to the `"fr"` run against an
untagged-location registry: the configuration falls back to GB and the
run ends in the `KeyError`. -/
theorem C10_witness :
    get_country_config "fr" = gbConfig
    ∧ (save_generation_to_data_platform
        ⟨["pvlive_in_day", "pvlive_day_after"], [fixture_gb_untagged_loc]⟩ []
        [fixture_row_one] "fr" true (fun _ => false)).outcome
      = Outcome.keyError "metadata" :=
  ⟨(C10_amended "fr" ⟨["pvlive_in_day", "pvlive_day_after"],
      [fixture_gb_untagged_loc]⟩ [] [fixture_row_one] true (fun _ => false)
      (by decide) (by decide) (by decide)).1,
   (C10_amended "fr" ⟨["pvlive_in_day", "pvlive_day_after"],
      [fixture_gb_untagged_loc]⟩ [] [fixture_row_one] true (fun _ => false)
      (by decide) (by decide) (by decide)).2.2.1 (by decide)⟩
